import Mathlib

/-!
# quotaservice: configuration defaults, event pipeline and admin handler

A shallow embedding of `configs.go`, `events.go` and `admin/namespaces.go`.

Conventions of the embedding:

* Go `int64`, `int` and `time.Duration` values are Lean `Int`s. None of the embedded
  functions does arithmetic on them, so no wrap-around can occur.
* A Go pointer is an `Option`: `none` is the nil pointer. Dereferencing nil is the
  run-time panic `Panic.nilDereference`.
* A Go `map[string]*T` is an association list `List (String × Option T)`; a nil map is
  `none`, an allocated one is `some`. `range` visits the entries in list order; Go leaves
  the order unspecified, and every theorem below holds for every list, so for every order.
* A function that may panic returns `Except Panic _`.
-/

namespace quotaservice

/-- The ways in which the embedded code can abort: an explicit `panic(msg)`, the
run-time panic raised by a nil pointer dereference or an invalid `make`, and the fatal
error of a goroutine whose stack is exhausted, which no `recover` catches. -/
inductive Panic where
  | message (msg : String)
  | nilDereference
  | runtime (msg : String)
  | stackOverflow
  deriving DecidableEq, Repr

/-! ## configs.go -/

/-- The struct `BucketConfig` of configs.go. -/
structure BucketConfig where
  Size : Int
  FillRate : Int
  WaitTimeoutMillis : Int
  MaxIdleMillis : Int
  MaxDebtMillis : Int
  MaxTokensPerRequest : Int
  deriving DecidableEq, Repr

/-- The struct `NamespaceConfig` of configs.go. -/
structure NamespaceConfig where
  DefaultBucket : Option BucketConfig
  DynamicBucketTemplate : Option BucketConfig
  MaxDynamicBuckets : Int
  Buckets : Option (List (String × Option BucketConfig))
  deriving DecidableEq, Repr

/-- The struct `ServiceConfig` of configs.go. -/
structure ServiceConfig where
  GlobalDefaultBucket : Option BucketConfig
  ListenerBufferSize : Int
  Namespaces : Option (List (String × Option NamespaceConfig))
  deriving DecidableEq, Repr

/-- The method `(b *BucketConfig) applyDefaults()`: six consecutive `if field == 0`
assignments, the last one reading the `FillRate` written by the second. -/
def BucketConfig.applyDefaults (b : BucketConfig) : BucketConfig :=
  let b := if b.Size = 0 then { b with Size := 100 } else b
  let b := if b.FillRate = 0 then { b with FillRate := 50 } else b
  let b := if b.WaitTimeoutMillis = 0 then { b with WaitTimeoutMillis := 1000 } else b
  let b := if b.MaxIdleMillis = 0 then { b with MaxIdleMillis := -1 } else b
  let b := if b.MaxDebtMillis = 0 then { b with MaxDebtMillis := 10000 } else b
  let b := if b.MaxTokensPerRequest = 0 then { b with MaxTokensPerRequest := b.FillRate } else b
  b

/-- The call `p.applyDefaults()` behind the guard `if p != nil`. -/
def applyDefaultsIfPresent (p : Option BucketConfig) : Option BucketConfig :=
  match p with
  | none => none
  | some b => some b.applyDefaults

/-- The inner loop `for _, b := range ns.Buckets { b.applyDefaults() }`: a nil entry is
dereferenced by `b.Size` and panics. -/
def applyDefaultsBuckets :
    List (String × Option BucketConfig) → Except Panic (List (String × Option BucketConfig))
  | [] => .ok []
  | (_, none) :: _ => .error Panic.nilDereference
  | (name, some b) :: rest =>
    match applyDefaultsBuckets rest with
    | .error p => .error p
    | .ok rest' => .ok ((name, some b.applyDefaults) :: rest')

/-- The text passed to `panic` for a namespace with both a default bucket and a template. -/
def bothBucketsMessage (name : String) : String :=
  "Namespace " ++ name ++
    " is not allowed to have a default bucket as well as allow dynamic buckets."

/-- The body of the loop `for name, ns := range s.Namespaces` in
`ServiceConfig.applyDefaults`. -/
def applyDefaultsNamespace (name : String) (ns : Option NamespaceConfig) :
    Except Panic NamespaceConfig :=
  match ns with
  | none => .error Panic.nilDereference
  | some ns =>
    if ns.DefaultBucket ≠ none ∧ ns.DynamicBucketTemplate ≠ none then
      .error (Panic.message (bothBucketsMessage name))
    else
      let buckets := match ns.Buckets with
        | none => []
        | some m => m
      match applyDefaultsBuckets buckets with
      | .error p => .error p
      | .ok buckets' =>
        .ok { DefaultBucket := applyDefaultsIfPresent ns.DefaultBucket
              DynamicBucketTemplate := applyDefaultsIfPresent ns.DynamicBucketTemplate
              MaxDynamicBuckets := ns.MaxDynamicBuckets
              Buckets := some buckets' }

/-- The loop `for name, ns := range s.Namespaces`, entry by entry. -/
def applyDefaultsNamespaces :
    List (String × Option NamespaceConfig) →
      Except Panic (List (String × Option NamespaceConfig))
  | [] => .ok []
  | (name, ns) :: rest =>
    match applyDefaultsNamespace name ns with
    | .error p => .error p
    | .ok ns' =>
      match applyDefaultsNamespaces rest with
      | .error p => .error p
      | .ok rest' => .ok ((name, some ns') :: rest')

/-- The method `(s *ServiceConfig) applyDefaults()`. Ranging over a nil map runs the body
zero times and leaves the map nil. -/
def ServiceConfig.applyDefaults (s : ServiceConfig) : Except Panic ServiceConfig :=
  let g := applyDefaultsIfPresent s.GlobalDefaultBucket
  match s.Namespaces with
  | none => .ok { s with GlobalDefaultBucket := g }
  | some m =>
    match applyDefaultsNamespaces m with
    | .error p => .error p
    | .ok m' => .ok { s with GlobalDefaultBucket := g, Namespaces := some m' }

/-- The function `NewDefaultBucketConfig()`: a literal that names five of the six fields. -/
def NewDefaultBucketConfig : BucketConfig :=
  { Size := 100, FillRate := 50, WaitTimeoutMillis := 1000, MaxIdleMillis := -1,
    MaxDebtMillis := 10000, MaxTokensPerRequest := 0 }

/-- The function `NewDefaultNamespaceConfig()`. -/
def NewDefaultNamespaceConfig : NamespaceConfig :=
  { DefaultBucket := none, DynamicBucketTemplate := none, MaxDynamicBuckets := 0,
    Buckets := some [] }

/-- The function `NewDefaultServiceConfig()`. -/
def NewDefaultServiceConfig : ServiceConfig :=
  { GlobalDefaultBucket := some NewDefaultBucketConfig, ListenerBufferSize := 10000,
    Namespaces := some [] }

/-- The function `readConfigFromBytes`. The library call `yaml.Unmarshal(bytes, cfg)` is
the parameter `unmarshal`: it fills the config it is given from the document; the code
drops the error it returns. The call of `logging.Print` leaves no trace here. -/
def readConfigFromBytes {Bytes : Type} (unmarshal : Bytes → ServiceConfig → ServiceConfig)
    (bytes : Bytes) : Except Panic ServiceConfig :=
  let cfg := NewDefaultServiceConfig
  let cfg := { cfg with GlobalDefaultBucket := none }
  let cfg := unmarshal bytes cfg
  cfg.applyDefaults

/-- The zero value of `BucketConfig`. -/
def zeroBucketConfig : BucketConfig :=
  { Size := 0, FillRate := 0, WaitTimeoutMillis := 0, MaxIdleMillis := 0,
    MaxDebtMillis := 0, MaxTokensPerRequest := 0 }

/-- The entries of a Go map, none for the nil map. -/
def mapEntries {α : Type} (m : Option (List (String × Option α))) : List (String × Option α) :=
  match m with
  | none => []
  | some l => l

/-- The bucket configs present in a list of optional pointers. -/
def presentBuckets (l : List (Option BucketConfig)) : List BucketConfig :=
  l.filterMap id

/-- Every bucket config held by a namespace: default bucket, dynamic template and the
static buckets. -/
def NamespaceConfig.bucketConfigs (ns : NamespaceConfig) : List BucketConfig :=
  presentBuckets (ns.DefaultBucket :: ns.DynamicBucketTemplate ::
    (mapEntries ns.Buckets).map Prod.snd)

/-- Every bucket config held by the namespaces of a map. -/
def namespacesBucketConfigs (m : List (String × Option NamespaceConfig)) : List BucketConfig :=
  (m.filterMap Prod.snd).flatMap NamespaceConfig.bucketConfigs

/-- Every bucket config held by a service config: the global default and the ones of
each namespace. -/
def ServiceConfig.bucketConfigs (s : ServiceConfig) : List BucketConfig :=
  presentBuckets [s.GlobalDefaultBucket] ++ namespacesBucketConfigs (mapEntries s.Namespaces)

/-- A namespace config with the defaults applied to each bucket config it holds and an
allocated bucket map. -/
def NamespaceConfig.withDefaults (ns : NamespaceConfig) : NamespaceConfig :=
  { DefaultBucket := applyDefaultsIfPresent ns.DefaultBucket
    DynamicBucketTemplate := applyDefaultsIfPresent ns.DynamicBucketTemplate
    MaxDynamicBuckets := ns.MaxDynamicBuckets
    Buckets := some ((mapEntries ns.Buckets).map fun e => (e.1, applyDefaultsIfPresent e.2)) }

/-- Every entry of the namespace map is a non-nil namespace whose bucket entries are
non-nil. -/
def namespacesNonNil (m : List (String × Option NamespaceConfig)) : Prop :=
  ∀ e ∈ m, ∃ ns, e.2 = some ns ∧ ∀ be ∈ mapEntries ns.Buckets, be.2 ≠ none

/-- Some entry of the namespace map has both `DefaultBucket` and `DynamicBucketTemplate`
non-nil. -/
def namespacesHaveBoth (m : List (String × Option NamespaceConfig)) : Prop :=
  ∃ e ∈ m, ∃ ns, e.2 = some ns ∧ ns.DefaultBucket ≠ none ∧ ns.DynamicBucketTemplate ≠ none

/-- Every namespace entry and every bucket entry of the config is a non-nil pointer. -/
def ServiceConfig.entriesNonNil (s : ServiceConfig) : Prop :=
  namespacesNonNil (mapEntries s.Namespaces)

/-- Some namespace of the config has both `DefaultBucket` and `DynamicBucketTemplate`
non-nil. -/
def ServiceConfig.someNamespaceHasBoth (s : ServiceConfig) : Prop :=
  namespacesHaveBoth (mapEntries s.Namespaces)

/-- A bucket entry after the defaults: the same name, and the pointer is non-nil on both
sides with the defaults applied to the value. -/
def bucketEntryDefaulted (be be' : String × Option BucketConfig) : Prop :=
  be'.1 = be.1 ∧ ∃ b, be.2 = some b ∧ be'.2 = some b.applyDefaults

/-- A namespace entry after the defaults: the same name, both pointers non-nil, the same
`MaxDynamicBuckets`, default bucket and template absent when they were absent and
defaulted when present, and an allocated bucket map with the defaulted entries under the
same names. -/
def namespaceEntryDefaulted (e e' : String × Option NamespaceConfig) : Prop :=
  e'.1 = e.1 ∧ ∃ ns ns', e.2 = some ns ∧ e'.2 = some ns' ∧
    ns'.MaxDynamicBuckets = ns.MaxDynamicBuckets ∧
    ns'.DefaultBucket = ns.DefaultBucket.map BucketConfig.applyDefaults ∧
    ns'.DynamicBucketTemplate = ns.DynamicBucketTemplate.map BucketConfig.applyDefaults ∧
    ∃ bs', ns'.Buckets = some bs' ∧
      List.Forall₂ bucketEntryDefaulted (mapEntries ns.Buckets) bs'

/-! ## events.go -/

/-- The type `EventType`, a Go `int`. -/
abbrev EventType := Int

/-- The constant `EVENT_TOKENS_SERVED`, iota 0. -/
def EVENT_TOKENS_SERVED : EventType := 0
/-- The constant `EVENT_TIMEOUT_SERVING_TOKENS`, iota 1. -/
def EVENT_TIMEOUT_SERVING_TOKENS : EventType := 1
/-- The constant `EVENT_TOO_MANY_TOKENS_REQUESTED`, iota 2. -/
def EVENT_TOO_MANY_TOKENS_REQUESTED : EventType := 2
/-- The constant `EVENT_BUCKET_MISS`, iota 3. -/
def EVENT_BUCKET_MISS : EventType := 3
/-- The constant `EVENT_BUCKET_CREATED`, iota 4. -/
def EVENT_BUCKET_CREATED : EventType := 4
/-- The constant `EVENT_BUCKET_REMOVED`, iota 5. -/
def EVENT_BUCKET_REMOVED : EventType := 5

/-- The `switch` of `EventType.String`: the name returned by the matching case, or none
when no case matches and control reaches the statement behind the `switch`. -/
def eventTypeCase (et : EventType) : Option String :=
  if et = EVENT_TOKENS_SERVED then some "EVENT_TOKENS_SERVED"
  else if et = EVENT_TIMEOUT_SERVING_TOKENS then some "EVENT_TIMEOUT_SERVING_TOKENS"
  else if et = EVENT_TOO_MANY_TOKENS_REQUESTED then some "EVENT_TOO_MANY_TOKENS_REQUESTED"
  else if et = EVENT_BUCKET_MISS then some "EVENT_BUCKET_MISS"
  else if et = EVENT_BUCKET_CREATED then some "EVENT_BUCKET_CREATED"
  else if et = EVENT_BUCKET_REMOVED then some "EVENT_BUCKET_REMOVED"
  else none

/-- The method `(et EventType) String()`, with the depth of nested calls the stack still
has room for.
Behind the `switch` the argument of `panic` is `fmt.Sprintf("Don't know event %v", et)`:
`EventType` has a `String` method, so `%v` formats `et` by calling `et.String()` again.
When that call returns a text, the panic carries it; when it panics, `fmt` recovers and
prints the panic inside the text; a stack overflow is fatal and ends everything. -/
def EventType.String : Nat → EventType → Except Panic String
  | 0, et =>
    match eventTypeCase et with
    | some name => .ok name
    | none => .error Panic.stackOverflow
  | stack + 1, et =>
    match eventTypeCase et with
    | some name => .ok name
    | none =>
      match EventType.String stack et with
      | .ok text => .error (Panic.message ("Don't know event " ++ text))
      | .error (Panic.message msg) =>
        .error (Panic.message
          ("Don't know event %!v(PANIC=String method: " ++ msg ++ ")"))
      | .error p => .error p

/-- The struct `namedEvent`. The field `namespace` is spelled `namespace_` because the
word is reserved. -/
structure namedEvent where
  eventType : EventType
  namespace_ : String
  bucketName : String
  dynamic : Bool
  deriving DecidableEq, Repr

/-- The struct `tokenEvent`, which embeds a `namedEvent`. -/
structure tokenEvent where
  namedEvent : namedEvent
  numTokens : Int
  deriving DecidableEq, Repr

/-- The struct `tokenWaitEvent`, which embeds a `tokenEvent`. -/
structure tokenWaitEvent where
  tokenEvent : tokenEvent
  waitTime : Int
  deriving DecidableEq, Repr

/-- The interface `Event`: its dynamic type is one of the three structs above. -/
inductive Event where
  | named (n : namedEvent)
  | token (t : tokenEvent)
  | tokenWait (t : tokenWaitEvent)
  deriving DecidableEq, Repr

/-- The method `(n *namedEvent) EventType()`. -/
def namedEvent.EventType (n : namedEvent) : EventType := n.eventType
/-- The method `(n *namedEvent) Namespace()`. -/
def namedEvent.Namespace (n : namedEvent) : String := n.namespace_
/-- The method `(n *namedEvent) BucketName()`. -/
def namedEvent.BucketName (n : namedEvent) : String := n.bucketName
/-- The method `(n *namedEvent) Dynamic()`. -/
def namedEvent.Dynamic (n : namedEvent) : Bool := n.dynamic
/-- The method `(n *namedEvent) NumTokens()`. -/
def namedEvent.NumTokens (_ : namedEvent) : Int := 0
/-- The method `(n *namedEvent) WaitTime()`. -/
def namedEvent.WaitTime (_ : namedEvent) : Int := 0

/-- The method `(t *tokenEvent) NumTokens()`, which shadows the promoted one. -/
def tokenEvent.NumTokens (t : tokenEvent) : Int := t.numTokens

/-- The method `(t *tokenWaitEvent) WaitTime()`, which shadows the promoted one. -/
def tokenWaitEvent.WaitTime (t : tokenWaitEvent) : Int := t.waitTime

/-- Interface method `EventType()`: promoted from the embedded `namedEvent` in all three
dynamic types. -/
def Event.EventType : Event → EventType
  | .named n => n.EventType
  | .token t => t.namedEvent.EventType
  | .tokenWait t => t.tokenEvent.namedEvent.EventType

/-- Interface method `Namespace()`. -/
def Event.Namespace : Event → String
  | .named n => n.Namespace
  | .token t => t.namedEvent.Namespace
  | .tokenWait t => t.tokenEvent.namedEvent.Namespace

/-- Interface method `BucketName()`. -/
def Event.BucketName : Event → String
  | .named n => n.BucketName
  | .token t => t.namedEvent.BucketName
  | .tokenWait t => t.tokenEvent.namedEvent.BucketName

/-- Interface method `Dynamic()`. -/
def Event.Dynamic : Event → Bool
  | .named n => n.Dynamic
  | .token t => t.namedEvent.Dynamic
  | .tokenWait t => t.tokenEvent.namedEvent.Dynamic

/-- Interface method `NumTokens()`: the method of `tokenEvent` where there is one, else the
one promoted from `namedEvent`. -/
def Event.NumTokens : Event → Int
  | .named n => n.NumTokens
  | .token t => t.NumTokens
  | .tokenWait t => t.tokenEvent.NumTokens

/-- Interface method `WaitTime()`: the method of `tokenWaitEvent` where there is one, else
the one promoted from `namedEvent`. -/
def Event.WaitTime : Event → Int
  | .named n => n.WaitTime
  | .token t => t.namedEvent.WaitTime
  | .tokenWait t => t.WaitTime

/-- The function `newNamedEvent`. -/
def newNamedEvent (namespace_ bucketName : String) (dynamic : Bool) (eventType : EventType) :
    namedEvent :=
  { eventType := eventType, namespace_ := namespace_, bucketName := bucketName,
    dynamic := dynamic }

/-- The function `newTokensServedEvent`. -/
def newTokensServedEvent (namespace_ bucketName : String) (dynamic : Bool) (numTokens : Int)
    (waitTime : Int) : Event :=
  .tokenWait
    { tokenEvent :=
        { namedEvent := newNamedEvent namespace_ bucketName dynamic EVENT_TOKENS_SERVED
          numTokens := numTokens }
      waitTime := waitTime }

/-- The function `newTimedOutEvent`. -/
def newTimedOutEvent (namespace_ bucketName : String) (dynamic : Bool) (numTokens : Int) :
    Event :=
  .token
    { namedEvent := newNamedEvent namespace_ bucketName dynamic EVENT_TIMEOUT_SERVING_TOKENS
      numTokens := numTokens }

/-- The function `newTooManyTokensRequestedEvent`. -/
def newTooManyTokensRequestedEvent (namespace_ bucketName : String) (dynamic : Bool)
    (numTokens : Int) : Event :=
  .token
    { namedEvent := newNamedEvent namespace_ bucketName dynamic EVENT_TOO_MANY_TOKENS_REQUESTED
      numTokens := numTokens }

/-- The function `newBucketMissedEvent`. -/
def newBucketMissedEvent (namespace_ bucketName : String) (dynamic : Bool) : Event :=
  .named (newNamedEvent namespace_ bucketName dynamic EVENT_BUCKET_MISS)

/-- The function `newBucketCreatedEvent`. -/
def newBucketCreatedEvent (namespace_ bucketName : String) (dynamic : Bool) : Event :=
  .named (newNamedEvent namespace_ bucketName dynamic EVENT_BUCKET_CREATED)

/-- The function `newBucketRemovedEvent`. -/
def newBucketRemovedEvent (namespace_ bucketName : String) (dynamic : Bool) : Event :=
  .named (newNamedEvent namespace_ bucketName dynamic EVENT_BUCKET_REMOVED)

/-- The state of the one goroutine that receives from a channel. `busy`: it is not waiting
on the channel, being about to receive or inside the loop body. `parked`: it is blocked in
a receive on the empty channel. `woken v`: a sender handed `v` straight to the parked
receiver, which has not yet resumed with it. -/
inductive Receiver (α : Type) where
  | busy
  | parked
  | woken (v : α)
  deriving DecidableEq, Repr

/-- A Go channel made by `make(chan T, cap)`, with the single goroutine that receives from
it: the buffered values, oldest first, the capacity (0 for an unbuffered channel), and the
state of the receiver. -/
structure Chan (α : Type) where
  buf : List α
  cap : Nat
  receiver : Receiver α
  deriving DecidableEq, Repr

/-- A send that must not block, `case c <- v` of a `select` with a `default`. It proceeds
when the receiver is parked, the value going straight to it and not through the buffer, or
when the buffer has room; it is refused otherwise, which on an unbuffered channel is
whenever no receiver is parked. -/
def Chan.trySend {α : Type} (c : Chan α) (v : α) : Option (Chan α) :=
  match c.receiver with
  | .parked => some { c with receiver := Receiver.woken v }
  | _ => if c.buf.length < c.cap then some { c with buf := c.buf ++ [v] } else none

/-- A receive by the receiver of the channel: the value a sender handed to it while it was
parked, else the oldest buffered value; on an empty channel it gets nothing and parks, and
it stays parked until a sender wakes it. -/
def Chan.recv {α : Type} (c : Chan α) : Option α × Chan α :=
  match c.receiver with
  | .woken v => (some v, { c with receiver := Receiver.busy })
  | .parked => (none, c)
  | .busy =>
    match c.buf with
    | [] => (none, { c with receiver := Receiver.parked })
    | v :: rest => (some v, { c with buf := rest })

/-- The values sent on the channel and not yet taken up by the receiver, oldest first: the
one handed to the woken receiver, then the buffered ones. -/
def Chan.pending {α : Type} (c : Chan α) : List α :=
  match c.receiver with
  | .woken v => v :: c.buf
  | _ => c.buf

/-- The struct `EventProducer`. -/
structure EventProducer where
  c : Chan Event
  deriving DecidableEq, Repr

/-- The type `Listener`, a Go function value: a call returns or panics. -/
abbrev Listener := Event → Except Panic Unit

/-- The line `Emit` hands to `logging.Println` when it drops an event. -/
def bufferFullLine : String := "Event buffer full; dropping event."

/-- The method `(e *EventProducer) Emit(event)`: the producer after the call and the
lines it logged. -/
def EventProducer.Emit (e : EventProducer) (event : Event) : EventProducer × List String :=
  match e.c.trySend event with
  | some c => ({ c := c }, [])
  | none => (e, [bufferFullLine])

/-- The function `registerListener`: the producer it returns. `make(chan Event, bufsize)`
panics on a negative size and on a size above the largest one the runtime serves, which
depends on the platform and is the parameter `makeLimit` (on 64-bit Linux the values of a
channel may take up to 2^48 - 96 bytes, 16 for each `Event`). The consumer started by
`go` has not reached its receive yet; its iterations are the `consume` steps of
`Pipeline.step`. -/
def registerListener (makeLimit : Nat) (listener : Option Listener) (bufsize : Int) :
    Except Panic EventProducer :=
  match listener with
  | none => .error (Panic.message "Cannot register a nil listener")
  | some _ =>
    if bufsize < 0 ∨ (makeLimit : Int) < bufsize then
      .error (Panic.runtime "makechan: size out of range")
    else .ok { c := { buf := [], cap := bufsize.toNat, receiver := Receiver.busy } }

/-- How a run of the consumer loop over the queued events ends: waiting on the empty
channel, or unwound by a panic of the listener. -/
inductive LoopEnd where
  | waiting
  | panicked (p : Panic)
  deriving DecidableEq, Repr

/-- The outcome of `notifyListeners` on a queue: the events the listener was called with,
in call order, the events left in the channel, and how the loop ended. -/
structure NotifyResult where
  calls : List Event
  rest : List Event
  ending : LoopEnd
  deriving DecidableEq, Repr

/-- The loop `for event := range ep.c { l(event) }` over the queued events. The body is
the bare call `l(event)`: a panic of the listener leaves the loop. -/
def notifyLoop (l : Listener) : List Event → NotifyResult
  | [] => { calls := [], rest := [], ending := LoopEnd.waiting }
  | event :: queue =>
    match l event with
    | .error p => { calls := [event], rest := queue, ending := LoopEnd.panicked p }
    | .ok _ =>
      let r := notifyLoop l queue
      { r with calls := event :: r.calls }

/-- The method `(ep *EventProducer) notifyListeners(l)` run on the events queued in the
buffer of the channel. -/
def EventProducer.notifyListeners (ep : EventProducer) (l : Listener) : NotifyResult :=
  notifyLoop l ep.c.buf

/-- The state of one producer with its consumer goroutine. `log` holds the lines given to
`logging.Println`, `passed` the arguments of the listener calls in call order, `crashed`
the panic that ended the program, if any. `emits` is a history variable: every executed
`Emit`, with its argument and whether the send went through, that is, whether the call
logged nothing. -/
structure Pipeline where
  ep : EventProducer
  log : List String
  passed : List Event
  crashed : Option Panic
  emits : List (Event × Bool)
  deriving DecidableEq, Repr

/-- The pipeline right after `registerListener` returned `ep`. -/
def Pipeline.start (ep : EventProducer) : Pipeline :=
  { ep := ep, log := [], passed := [], crashed := none, emits := [] }

/-- The atomic steps of the two goroutines: a call of `Emit`, and one iteration of the
loop of `notifyListeners`. -/
inductive Step where
  | emit (event : Event)
  | consume
  deriving DecidableEq, Repr

/-- One step of the pipeline. An unrecovered panic ends the program, so nothing happens
after it. A `consume` is the receive of `range ep.c` followed by the call `l(event)`; on
the empty channel it parks the consumer, and a parked consumer does nothing until an
`Emit` wakes it. -/
def Pipeline.step (l : Listener) (s : Pipeline) (st : Step) : Pipeline :=
  match s.crashed with
  | some _ => s
  | none =>
    match st with
    | .emit event =>
      let r := s.ep.Emit event
      { s with ep := r.1, log := s.log ++ r.2, emits := s.emits ++ [(event, r.2.isEmpty)] }
    | .consume =>
      match s.ep.c.recv with
      | (none, c) => { s with ep := { c := c } }
      | (some event, c) =>
        { s with
          ep := { c := c }
          passed := s.passed ++ [event]
          crashed := match l event with
            | .ok _ => none
            | .error p => some p }

/-- The events of the `emit` steps of a sequence, in order. -/
def emittedEvents : List Step → List Event
  | [] => []
  | .emit event :: steps => event :: emittedEvents steps
  | .consume :: steps => emittedEvents steps

/-- A sequence of steps, from left to right. -/
def Pipeline.run (l : Listener) (s : Pipeline) (steps : List Step) : Pipeline :=
  steps.foldl (Pipeline.step l) s

/-- The pipeline after `steps`, started right after `registerListener` returned `ep`. -/
def Pipeline.after (l : Listener) (ep : EventProducer) (steps : List Step) : Pipeline :=
  Pipeline.run l (Pipeline.start ep) steps

/-- The events given to `Emit`, in call order. -/
def Pipeline.emitted (s : Pipeline) : List Event := s.emits.map Prod.fst

/-- The events whose send went through, in call order: the emitted ones that were not
dropped. -/
def Pipeline.enqueued (s : Pipeline) : List Event := (s.emits.filter Prod.snd).map Prod.fst

/-- No call of `Emit` found the buffer full and dropped its event. -/
def Pipeline.noneDropped (s : Pipeline) : Prop := ∀ x ∈ s.emits, x.2 = true

/-- The channel has been drained: no event that was sent still waits for the consumer, in
the buffer or in the hand of the woken consumer. -/
def Pipeline.drained (s : Pipeline) : Prop := s.ep.c.pending = []

end quotaservice

/-! ## Standard library pieces used by admin/namespaces.go -/

namespace http

/-- The constant `http.StatusBadRequest`. -/
def StatusBadRequest : Int := 400
/-- The constant `http.StatusNotFound`. -/
def StatusNotFound : Int := 404
/-- The constant `http.StatusInternalServerError`. -/
def StatusInternalServerError : Int := 500

end http

namespace strings

/-- The function `strings.TrimPrefix`: `s` without the leading `pre` when it starts with
it, else `s`. -/
def TrimPrefix (s pre : String) : String :=
  if pre.data <+: s.data then String.mk (s.data.drop pre.data.length) else s

/-- The function `strings.Trim`: `s` without the leading and trailing characters that
occur in `cutset`. -/
def Trim (s cutset : String) : String :=
  String.mk ((s.data.dropWhile fun ch => decide (ch ∈ cutset.data)).rdropWhile
    fun ch => decide (ch ∈ cutset.data))

end strings

/-! ## admin/namespaces.go

The package's `Administrable` interface, its `HttpError` type, the helpers `writeJSON`,
`writeJSONError` and `unmarshalJSON`, the constant `config.GlobalNamespace` and the
protobuf config types are declared outside the embedded files. The config types and the
request body are type parameters `SC`, `NC` and `Body`; the engine behind `Administrable`
is a state of type `σ`. -/

namespace admin

/-- Modelled from the spec: the type `HttpError` is declared outside the embedded files.
The handler builds it from a message and a status code, and the spec returns errors as
JSON with the members error and status. -/
structure HttpError where
  message : String
  status : Int
  deriving DecidableEq, Repr

/-- A Go `error` value, by the text of its `Error()` method; a nil error is `none`. -/
abbrev GoError := String

/-- The value handed to `writeJSON`: the whole service config or one namespace config. -/
inductive Payload (SC NC : Type) where
  | serviceConfig (cfgs : SC)
  | namespaceConfig (c : NC)
  deriving DecidableEq, Repr

/-- One write to the `http.ResponseWriter`: a call of `writeJSON` or of `writeJSONError`,
with its argument. -/
inductive Written (SC NC : Type) where
  | json (object : Payload SC NC)
  | jsonError (err : HttpError)
  deriving DecidableEq, Repr

/-- One call of a method of `Administrable`, with its argument. -/
inductive Call (NC : Type) where
  | Configs
  | AddNamespace (c : NC)
  | UpdateNamespace (c : NC)
  | DeleteNamespace (name : String)
  deriving DecidableEq, Repr

/-- The interface `Administrable`, taken as a parameter: each method acts on the engine
state `σ` and returns its result. -/
structure Administrable (σ SC NC : Type) where
  Configs : σ → SC × σ
  AddNamespace : NC → σ → Option GoError × σ
  UpdateNamespace : NC → σ → Option GoError × σ
  DeleteNamespace : String → σ → Option GoError × σ

/-- The struct `namespacesAPIHandler`. -/
structure namespacesAPIHandler (σ SC NC : Type) where
  a : Administrable σ SC NC

/-- The function `NewNamespacesAPIHandler`. -/
def NewNamespacesAPIHandler {σ SC NC : Type} (admin : Administrable σ SC NC) :
    namespacesAPIHandler σ SC NC :=
  { a := admin }

/-- The parts of an `http.Request` the handler reads: `r.Method`, `r.URL.Path` and
`r.Body`. -/
structure Request (Body : Type) where
  Method : String
  Path : String
  Body : Body

/-- The declarations the handler uses from outside the embedded files, taken as
parameters: the constant `config.GlobalNamespace`, the map index
`cfgs.Namespaces[name]` (none for the nil it yields on a missing name), the zero value
`pb.NamespaceConfig` and the helper `unmarshalJSON`, which fills a config from the body
and returns an error or nil. -/
structure Env (SC NC Body : Type) where
  GlobalNamespace : String
  Namespaces : SC → String → Option NC
  zeroNamespaceConfig : NC
  unmarshalJSON : Body → NC → NC × Option GoError

/-- Everything a request can change: the engine state, the calls made to `Administrable`
so far, and the writes to the response so far. -/
structure Exchange (σ SC NC : Type) where
  engine : σ
  calls : List (Call NC)
  w : List (Written SC NC)

variable {σ SC NC Body : Type}

/-- The helper `writeJSON(w, object)`, recorded as one write. -/
def writeJSON (w : List (Written SC NC)) (object : Payload SC NC) : List (Written SC NC) :=
  w ++ [Written.json object]

/-- The helper `writeJSONError(w, err)`, recorded as one write. -/
def writeJSONError (w : List (Written SC NC)) (err : HttpError) : List (Written SC NC) :=
  w ++ [Written.jsonError err]

/-- The function `writeNamespace`: the exchange after it and the `*HttpError` it
returns. -/
def writeNamespace (env : Env SC NC Body) (a : namespacesAPIHandler σ SC NC)
    (x : Exchange σ SC NC) (namespace_ : String) : Exchange σ SC NC × Option HttpError :=
  let r := a.a.Configs x.engine
  let cfgs := r.1
  let x := { x with engine := r.2, calls := x.calls ++ [Call.Configs] }
  if namespace_ = "" ∨ namespace_ = env.GlobalNamespace then
    ({ x with w := writeJSON x.w (Payload.serviceConfig cfgs) }, none)
  else
    match env.Namespaces cfgs namespace_ with
    | none =>
      (x, some (HttpError.mk ("Unable to locate namespace " ++ namespace_)
        http.StatusNotFound))
    | some c => ({ x with w := writeJSON x.w (Payload.namespaceConfig c) }, none)

/-- The function `getNamespaceConfig`: the config filled from the body, and the error. -/
def getNamespaceConfig (env : Env SC NC Body) (body : Body) : NC × Option GoError :=
  env.unmarshalJSON body env.zeroNamespaceConfig

/-- The function `changeNamespace`. -/
def changeNamespace (env : Env SC NC Body) (x : Exchange σ SC NC) (r : Request Body)
    (updater : NC → Exchange σ SC NC → Option GoError × Exchange σ SC NC) :
    Exchange σ SC NC :=
  let ce := getNamespaceConfig env r.Body
  match ce.2 with
  | some e =>
    { x with w := writeJSONError x.w (HttpError.mk e http.StatusInternalServerError) }
  | none =>
    let ex := updater ce.1 x
    match ex.1 with
    | some e =>
      { ex.2 with w := writeJSONError ex.2.w (HttpError.mk e http.StatusInternalServerError) }
    | none => ex.2

/-- The closure `func(c) error { return a.a.UpdateNamespace(c) }` of the PUT case. -/
def updateNamespaceUpdater (a : namespacesAPIHandler σ SC NC) (c : NC) (x : Exchange σ SC NC) :
    Option GoError × Exchange σ SC NC :=
  let r := a.a.UpdateNamespace c x.engine
  (r.1, { x with engine := r.2, calls := x.calls ++ [Call.UpdateNamespace c] })

/-- The closure `func(c) error { return a.a.AddNamespace(c) }` of the POST case. -/
def addNamespaceUpdater (a : namespacesAPIHandler σ SC NC) (c : NC) (x : Exchange σ SC NC) :
    Option GoError × Exchange σ SC NC :=
  let r := a.a.AddNamespace c x.engine
  (r.1, { x with engine := r.2, calls := x.calls ++ [Call.AddNamespace c] })

/-- The namespace the handler reads from the path:
`strings.Trim(strings.TrimPrefix(r.URL.Path, "/api"), "/")`. -/
def requestNamespace (r : Request Body) : String :=
  strings.Trim (strings.TrimPrefix r.Path "/api") "/"

/-- The method `(a *namespacesAPIHandler) ServeHTTP(w, r)`. -/
def namespacesAPIHandler.ServeHTTP (env : Env SC NC Body) (a : namespacesAPIHandler σ SC NC)
    (x : Exchange σ SC NC) (r : Request Body) : Exchange σ SC NC :=
  let ns := requestNamespace r
  if r.Method = "GET" then
    let res := writeNamespace env a x ns
    match res.2 with
    | some err => { res.1 with w := writeJSONError res.1.w err }
    | none => res.1
  else if r.Method = "DELETE" then
    let res := a.a.DeleteNamespace ns x.engine
    let x := { x with engine := res.2, calls := x.calls ++ [Call.DeleteNamespace ns] }
    match res.1 with
    | some err =>
      { x with w := writeJSONError x.w (HttpError.mk err http.StatusBadRequest) }
    | none => x
  else if r.Method = "PUT" then
    changeNamespace env x r (updateNamespaceUpdater a)
  else if r.Method = "POST" then
    changeNamespace env x r (addNamespaceUpdater a)
  else
    let err := HttpError.mk ("Unknown method " ++ r.Method) http.StatusBadRequest
    { x with w := writeJSONError x.w err }

/-- The call is one of the three that change the configuration of the engine. -/
def Call.mutating {NC : Type} : Call NC → Bool
  | .Configs => false
  | .AddNamespace _ => true
  | .UpdateNamespace _ => true
  | .DeleteNamespace _ => true

end admin

/-! ## Sample inputs -/

namespace quotaservice

/-- A bucket config with only `Size` and `FillRate` set. -/
def sampleBucket (size fillRate : Int) : BucketConfig :=
  { zeroBucketConfig with Size := size, FillRate := fillRate }

/-- A config with one namespace that has a default bucket and a dynamic template. -/
def sampleBothConfig : ServiceConfig :=
  { GlobalDefaultBucket := none
    ListenerBufferSize := 10000
    Namespaces := some [("both",
      some { DefaultBucket := some (sampleBucket 10 10)
             DynamicBucketTemplate := some (sampleBucket 1 1)
             MaxDynamicBuckets := 2
             Buckets := none })] }

/-- A config whose global default bucket has a negative size and a negative fill rate. -/
def negativeSizeConfig : ServiceConfig :=
  { GlobalDefaultBucket := some (sampleBucket (-5) (-1))
    ListenerBufferSize := 10000
    Namespaces := some [] }

/-- A config with a global default and one namespace with a template and a static bucket,
all with zero or positive sizes and rates. -/
def sampleConfig : ServiceConfig :=
  { GlobalDefaultBucket := some (sampleBucket 0 0)
    ListenerBufferSize := 10000
    Namespaces := some [("n",
      some { DefaultBucket := none
             DynamicBucketTemplate := some (sampleBucket 1 1)
             MaxDynamicBuckets := 2
             Buckets := some [("a", some (sampleBucket 10 0))] })] }

/-- A YAML decoder for the examples that finds no key in the document and so leaves the
config it is given as it is. -/
def unmarshalNothing (_ : String) (cfg : ServiceConfig) : ServiceConfig := cfg

/-- The config loaded from a document without any key. -/
def emptyDocumentConfig : ServiceConfig :=
  { GlobalDefaultBucket := none, ListenerBufferSize := 10000, Namespaces := some [] }

/-- A bucket-miss event. -/
def sampleMiss : Event := newBucketMissedEvent "n" "a" false

/-- A tokens-served event. -/
def sampleServed : Event := newTokensServedEvent "n" "b" true 3 7

/-- A listener that panics on bucket-miss events and returns on all others. -/
def failOnMiss : Listener := fun event =>
  if event.EventType = EVENT_BUCKET_MISS then .error (Panic.message "listener failed")
  else .ok ()

/-- A listener that always returns. -/
def quietListener : Listener := fun _ => .ok ()

/-- A producer with the given events queued in a channel of the given capacity, the
consumer not waiting. -/
def producerWith (queue : List Event) (cap : Nat) : EventProducer :=
  { c := { buf := queue, cap := cap, receiver := Receiver.busy } }

/-- A producer on an unbuffered channel with the consumer parked in its receive. -/
def parkedProducer : EventProducer :=
  { c := { buf := [], cap := 0, receiver := Receiver.parked } }

end quotaservice

namespace admin

/-- A small engine for the examples: its state and its config snapshot are a list of names
of namespaces, with one number each as the namespace config. -/
def sampleEngine : Administrable (List (String × Nat)) (List (String × Nat)) (String × Nat) where
  Configs := fun st => (st, st)
  AddNamespace := fun c st =>
    if (st.lookup c.1).isSome then (some ("Namespace " ++ c.1 ++ " already exists"), st)
    else (none, st ++ [c])
  UpdateNamespace := fun c st =>
    if (st.lookup c.1).isSome then (none, (st.filter fun e => e.1 ≠ c.1) ++ [c])
    else (some ("Namespace " ++ c.1 ++ " does not exist"), st)
  DeleteNamespace := fun name st =>
    if (st.lookup name).isSome then (none, st.filter fun e => e.1 ≠ name)
    else (some ("Namespace " ++ name ++ " does not exist"), st)

/-- The handler over the example engine. -/
def sampleHandler : namespacesAPIHandler (List (String × Nat)) (List (String × Nat))
    (String × Nat) :=
  NewNamespacesAPIHandler sampleEngine

/-- The outside declarations for the examples: a body is an optional namespace config,
none being a body that does not decode. -/
def sampleEnv : Env (List (String × Nat)) (String × Nat) (Option (String × Nat)) where
  GlobalNamespace := "___GLOBAL___"
  Namespaces := fun cfgs name => (cfgs.lookup name).map fun v => (name, v)
  zeroNamespaceConfig := ("", 0)
  unmarshalJSON := fun body c =>
    match body with
    | none => (c, some "unexpected end of JSON input")
    | some d => (d, none)

/-- An exchange with the example engine holding the namespace `n`, before any call or
write. -/
def sampleExchange : Exchange (List (String × Nat)) (List (String × Nat)) (String × Nat) :=
  { engine := [("n", 7)], calls := [], w := [] }

/-- A request whose body decodes to the given namespace config. -/
def sampleRequestWith (method path : String) (c : String × Nat) :
    Request (Option (String × Nat)) :=
  { Method := method, Path := path, Body := some c }

/-- A request without a body. -/
def sampleRequest (method path : String) : Request (Option (String × Nat)) :=
  { Method := method, Path := path, Body := none }

end admin

/-! ## Theorems about configs.go -/

namespace quotaservice

/-- The result of `BucketConfig.applyDefaults`, field by field. -/
theorem applyDefaults_closed_form (b : BucketConfig) :
    b.applyDefaults =
      { Size := if b.Size = 0 then 100 else b.Size
        FillRate := if b.FillRate = 0 then 50 else b.FillRate
        WaitTimeoutMillis := if b.WaitTimeoutMillis = 0 then 1000 else b.WaitTimeoutMillis
        MaxIdleMillis := if b.MaxIdleMillis = 0 then -1 else b.MaxIdleMillis
        MaxDebtMillis := if b.MaxDebtMillis = 0 then 10000 else b.MaxDebtMillis
        MaxTokensPerRequest :=
          if b.MaxTokensPerRequest = 0 then (if b.FillRate = 0 then 50 else b.FillRate)
          else b.MaxTokensPerRequest } := by
  obtain ⟨sz, fr, wt, mi, md, mt⟩ := b
  by_cases h1 : sz = 0 <;> by_cases h2 : fr = 0 <;> by_cases h3 : wt = 0 <;>
    by_cases h4 : mi = 0 <;> by_cases h5 : md = 0 <;> by_cases h6 : mt = 0 <;>
    simp [BucketConfig.applyDefaults, h1, h2, h3, h4, h5, h6]

/-- C1: `BucketConfig.applyDefaults` replaces exactly the zero fields by their defaults and
keeps every non-zero field: Size 0 becomes 100, FillRate 0 becomes 50, WaitTimeoutMillis 0
becomes 1000, MaxIdleMillis 0 becomes -1, MaxDebtMillis 0 becomes 10000, and
MaxTokensPerRequest 0 becomes the FillRate of the result, which is 50 when the input
FillRate was 0 too. -/
theorem applyDefaults_replaces_exactly_zero_fields (b : BucketConfig) :
    b.applyDefaults.Size = (if b.Size = 0 then 100 else b.Size) ∧
    b.applyDefaults.FillRate = (if b.FillRate = 0 then 50 else b.FillRate) ∧
    b.applyDefaults.WaitTimeoutMillis =
      (if b.WaitTimeoutMillis = 0 then 1000 else b.WaitTimeoutMillis) ∧
    b.applyDefaults.MaxIdleMillis = (if b.MaxIdleMillis = 0 then -1 else b.MaxIdleMillis) ∧
    b.applyDefaults.MaxDebtMillis = (if b.MaxDebtMillis = 0 then 10000 else b.MaxDebtMillis) ∧
    b.applyDefaults.MaxTokensPerRequest =
      (if b.MaxTokensPerRequest = 0 then b.applyDefaults.FillRate
        else b.MaxTokensPerRequest) ∧
    b.applyDefaults.MaxTokensPerRequest =
      (if b.MaxTokensPerRequest = 0 then (if b.FillRate = 0 then 50 else b.FillRate)
        else b.MaxTokensPerRequest) := by
  rw [applyDefaults_closed_form b]
  exact ⟨rfl, rfl, rfl, rfl, rfl, rfl, rfl⟩

/-- The bucket loop succeeds on a map without nil entries and applies the defaults to
every entry. -/
theorem applyDefaultsBuckets_of_nonNil (l : List (String × Option BucketConfig))
    (h : ∀ be ∈ l, be.2 ≠ none) :
    applyDefaultsBuckets l =
      .ok (l.map fun e => (e.1, applyDefaultsIfPresent e.2)) := by
  induction l with
  | nil => rfl
  | cons e rest ih =>
    obtain ⟨name, ob⟩ := e
    have hrest : ∀ be ∈ rest, be.2 ≠ none := fun be hbe => h be (List.mem_cons_of_mem _ hbe)
    cases ob with
    | none => exact absurd rfl (h (name, none) (List.mem_cons_self _ _))
    | some b => simp [applyDefaultsBuckets, ih hrest, applyDefaultsIfPresent]

/-- When the bucket loop returns, the map had no nil entry and the result holds the
defaulted entries under the same names, in the same order. -/
theorem applyDefaultsBuckets_ok_inv (l l' : List (String × Option BucketConfig))
    (h : applyDefaultsBuckets l = .ok l') :
    (∀ be ∈ l, be.2 ≠ none) ∧ l' = l.map fun e => (e.1, applyDefaultsIfPresent e.2) := by
  induction l generalizing l' with
  | nil =>
    simp only [applyDefaultsBuckets, Except.ok.injEq] at h
    simp [← h]
  | cons e rest ih =>
    obtain ⟨name, ob⟩ := e
    cases ob with
    | none => simp [applyDefaultsBuckets] at h
    | some b =>
      simp only [applyDefaultsBuckets] at h
      cases hr : applyDefaultsBuckets rest with
      | error p => simp [hr] at h
      | ok rest' =>
        simp only [hr, Except.ok.injEq] at h
        obtain ⟨h1, h2⟩ := ih rest' hr
        refine ⟨?_, ?_⟩
        · intro be hbe
          rcases List.mem_cons.mp hbe with rfl | hbe
          · simp
          · exact h1 be hbe
        · simp [← h, h2, applyDefaultsIfPresent]

/-- The loop body on a non-nil namespace without both buckets and without nil bucket
entries returns the namespace with defaults applied. -/
theorem applyDefaultsNamespace_of_nonNil (name : String) (ns : NamespaceConfig)
    (hboth : ¬ (ns.DefaultBucket ≠ none ∧ ns.DynamicBucketTemplate ≠ none))
    (h : ∀ be ∈ mapEntries ns.Buckets, be.2 ≠ none) :
    applyDefaultsNamespace name (some ns) =
      .ok ns.withDefaults := by
  have hb := applyDefaultsBuckets_of_nonNil (mapEntries ns.Buckets) h
  simp only [applyDefaultsNamespace, if_neg hboth, NamespaceConfig.withDefaults]
  cases hB : ns.Buckets with
  | none => simp [mapEntries, applyDefaultsBuckets]
  | some m =>
    simp only [hB, mapEntries] at hb
    simp [hb, mapEntries]

/-- When the loop body returns, the entry was a non-nil namespace without both buckets and
the result is that namespace with defaults applied. -/
theorem applyDefaultsNamespace_ok_inv (name : String) (ons : Option NamespaceConfig)
    (ns' : NamespaceConfig) (h : applyDefaultsNamespace name ons = .ok ns') :
    ∃ ns, ons = some ns ∧
      ¬ (ns.DefaultBucket ≠ none ∧ ns.DynamicBucketTemplate ≠ none) ∧
      (∀ be ∈ mapEntries ns.Buckets, be.2 ≠ none) ∧
      ns' = ns.withDefaults := by
  cases ons with
  | none => simp [applyDefaultsNamespace] at h
  | some ns =>
    refine ⟨ns, rfl, ?_⟩
    by_cases hboth : ns.DefaultBucket ≠ none ∧ ns.DynamicBucketTemplate ≠ none
    · simp [applyDefaultsNamespace, if_pos hboth] at h
    · simp only [applyDefaultsNamespace, if_neg hboth] at h
      have key : ∀ l, applyDefaultsBuckets (mapEntries ns.Buckets) = .ok l →
          (∀ be ∈ mapEntries ns.Buckets, be.2 ≠ none) ∧
            l = (mapEntries ns.Buckets).map fun e => (e.1, applyDefaultsIfPresent e.2) :=
        fun l hl => applyDefaultsBuckets_ok_inv _ l hl
      have hentries : (match ns.Buckets with
          | none => []
          | some m => m) = mapEntries ns.Buckets := by
        cases ns.Buckets <;> rfl
      rw [hentries] at h
      cases hr : applyDefaultsBuckets (mapEntries ns.Buckets) with
      | error p => simp [hr] at h
      | ok l =>
        simp only [hr, Except.ok.injEq] at h
        obtain ⟨h1, h2⟩ := key l hr
        exact ⟨hboth, h1, by rw [← h, h2]; rfl⟩

/-- When the namespace loop returns, every entry was a non-nil namespace without both
buckets and without nil bucket entries, and the result holds the defaulted namespaces
under the same names, in the same order. -/
theorem applyDefaultsNamespaces_ok_inv (m m' : List (String × Option NamespaceConfig))
    (h : applyDefaultsNamespaces m = .ok m') :
    (∀ e ∈ m, ∃ ns, e.2 = some ns ∧
      ¬ (ns.DefaultBucket ≠ none ∧ ns.DynamicBucketTemplate ≠ none) ∧
      ∀ be ∈ mapEntries ns.Buckets, be.2 ≠ none) ∧
    m' = m.map fun e => (e.1, e.2.map NamespaceConfig.withDefaults) := by
  induction m generalizing m' with
  | nil =>
    simp only [applyDefaultsNamespaces, Except.ok.injEq] at h
    simp [← h]
  | cons e rest ih =>
    obtain ⟨name, ons⟩ := e
    simp only [applyDefaultsNamespaces] at h
    cases hn : applyDefaultsNamespace name ons with
    | error p => simp [hn] at h
    | ok ns' =>
      simp only [hn] at h
      cases hr : applyDefaultsNamespaces rest with
      | error p => simp [hr] at h
      | ok rest' =>
        simp only [hr, Except.ok.injEq] at h
        obtain ⟨ns, hns, hboth, hbk, hns'⟩ := applyDefaultsNamespace_ok_inv name ons ns' hn
        obtain ⟨h1, h2⟩ := ih rest' hr
        refine ⟨?_, ?_⟩
        · intro e he
          rcases List.mem_cons.mp he with rfl | he
          · exact ⟨ns, hns, hboth, hbk⟩
          · exact h1 e he
        · simp [← h, h2, hns, hns']

/-- The guarded call `p.applyDefaults()` is the map of `applyDefaults` over the optional
pointer. -/
theorem applyDefaultsIfPresent_eq_map (p : Option BucketConfig) :
    applyDefaultsIfPresent p = p.map BucketConfig.applyDefaults := by
  cases p <;> rfl

/-- On a namespace map without nil entries, the namespace loop panics with the message
for a namespace that has both buckets when there is one, and returns the defaulted map
otherwise. -/
theorem applyDefaultsNamespaces_of_nonNil (m : List (String × Option NamespaceConfig))
    (hnn : namespacesNonNil m) :
    (namespacesHaveBoth m →
      ∃ e ∈ m, ∃ ns, e.2 = some ns ∧ ns.DefaultBucket ≠ none ∧
        ns.DynamicBucketTemplate ≠ none ∧
        applyDefaultsNamespaces m = .error (Panic.message (bothBucketsMessage e.1))) ∧
    (¬ namespacesHaveBoth m →
      applyDefaultsNamespaces m =
        .ok (m.map fun e => (e.1, e.2.map NamespaceConfig.withDefaults))) := by
  induction m with
  | nil =>
    refine ⟨?_, fun _ => rfl⟩
    rintro ⟨e, he, _⟩
    simp at he
  | cons e rest ih =>
    obtain ⟨name, ons⟩ := e
    have hrest : namespacesNonNil rest := fun e he => hnn e (List.mem_cons_of_mem _ he)
    obtain ⟨ns, hns, hbk⟩ := hnn (name, ons) (List.mem_cons_self _ _)
    simp only at hns
    subst hns
    obtain ⟨ih1, ih2⟩ := ih hrest
    by_cases hboth : ns.DefaultBucket ≠ none ∧ ns.DynamicBucketTemplate ≠ none
    · refine ⟨fun _ => ⟨(name, some ns), List.mem_cons_self _ _, ns, rfl, hboth.1, hboth.2, ?_⟩,
        fun hno => ?_⟩
      · simp [applyDefaultsNamespaces, applyDefaultsNamespace, if_pos hboth]
      · exact absurd ⟨(name, some ns), List.mem_cons_self _ _, ns, rfl, hboth.1, hboth.2⟩ hno
    · have hhead := applyDefaultsNamespace_of_nonNil name ns hboth hbk
      refine ⟨fun hyes => ?_, fun hno => ?_⟩
      · have hrestBoth : namespacesHaveBoth rest := by
          obtain ⟨e, he, ns0, hns0, hd, ht⟩ := hyes
          rcases List.mem_cons.mp he with rfl | he
          · simp only [Option.some.injEq] at hns0
            subst hns0
            exact absurd ⟨hd, ht⟩ hboth
          · exact ⟨e, he, ns0, hns0, hd, ht⟩
        obtain ⟨e, he, ns0, hns0, hd, ht, herr⟩ := ih1 hrestBoth
        exact ⟨e, List.mem_cons_of_mem _ he, ns0, hns0, hd, ht,
          by simp [applyDefaultsNamespaces, hhead, herr]⟩
      · have hrestNo : ¬ namespacesHaveBoth rest := by
          rintro ⟨e, he, ns0, hns0, hd, ht⟩
          exact hno ⟨e, List.mem_cons_of_mem _ he, ns0, hns0, hd, ht⟩
        simp [applyDefaultsNamespaces, hhead, ih2 hrestNo]

/-- C2: on a `ServiceConfig` whose namespace entries and bucket entries are all non-nil,
`ServiceConfig.applyDefaults` panics if and only if some namespace has both `DefaultBucket`
and `DynamicBucketTemplate` non-nil, the panic then being the explicit one with the
message that names such a namespace; otherwise it returns the config: the one it was
given, with the defaults applied to the global default bucket when there is one and to
every namespace, and everything else as it was. -/
theorem applyDefaults_panics_iff_both (s : ServiceConfig) (h : s.entriesNonNil) :
    ((∃ p, s.applyDefaults = .error p) ↔ s.someNamespaceHasBoth) ∧
    (s.someNamespaceHasBoth →
      ∃ e ∈ mapEntries s.Namespaces, ∃ ns, e.2 = some ns ∧ ns.DefaultBucket ≠ none ∧
        ns.DynamicBucketTemplate ≠ none ∧
        s.applyDefaults = .error (Panic.message (bothBucketsMessage e.1))) ∧
    (¬ s.someNamespaceHasBoth →
      s.applyDefaults =
        .ok { GlobalDefaultBucket := s.GlobalDefaultBucket.map BucketConfig.applyDefaults
              ListenerBufferSize := s.ListenerBufferSize
              Namespaces := s.Namespaces.map fun m =>
                m.map fun e => (e.1, e.2.map NamespaceConfig.withDefaults) }) := by
  have hyes : s.someNamespaceHasBoth →
      ∃ e ∈ mapEntries s.Namespaces, ∃ ns, e.2 = some ns ∧ ns.DefaultBucket ≠ none ∧
        ns.DynamicBucketTemplate ≠ none ∧
        s.applyDefaults = .error (Panic.message (bothBucketsMessage e.1)) := by
    intro hb
    cases hN : s.Namespaces with
    | none =>
      obtain ⟨e, he, _⟩ := hb
      simp [hN, mapEntries] at he
    | some m =>
      simp only [ServiceConfig.entriesNonNil, ServiceConfig.someNamespaceHasBoth, hN,
        mapEntries] at h hb
      obtain ⟨e, he, ns, hns, hd, ht, herr⟩ := (applyDefaultsNamespaces_of_nonNil m h).1 hb
      exact ⟨e, he, ns, hns, hd, ht, by simp [ServiceConfig.applyDefaults, hN, herr]⟩
  have hno : ¬ s.someNamespaceHasBoth →
      s.applyDefaults =
        .ok { GlobalDefaultBucket := s.GlobalDefaultBucket.map BucketConfig.applyDefaults
              ListenerBufferSize := s.ListenerBufferSize
              Namespaces := s.Namespaces.map fun m =>
                m.map fun e => (e.1, e.2.map NamespaceConfig.withDefaults) } := by
    intro hb
    cases hN : s.Namespaces with
    | none =>
      simp only [ServiceConfig.applyDefaults, hN, applyDefaultsIfPresent_eq_map,
        Option.map_none']
    | some m =>
      simp only [ServiceConfig.entriesNonNil, ServiceConfig.someNamespaceHasBoth, hN,
        mapEntries] at h hb
      have hm := (applyDefaultsNamespaces_of_nonNil m h).2 hb
      simp only [ServiceConfig.applyDefaults, hN, hm, applyDefaultsIfPresent_eq_map,
        Option.map_some']
  refine ⟨⟨?_, fun hb => ?_⟩, hyes, hno⟩
  · rintro ⟨p, hp⟩
    by_contra hb
    rw [hno hb] at hp
    cases hp
  · obtain ⟨e, _, _, _, _, _, herr⟩ := hyes hb
    exact ⟨_, herr⟩

/-- C2, at two configs without nil entries. One has a namespace with both buckets: the
call panics with the message that names it. The other has none: the call returns the
config with the defaults applied. -/
theorem applyDefaults_panics_iff_both_witness :
    (sampleBothConfig.entriesNonNil ∧ sampleBothConfig.someNamespaceHasBoth ∧
      ∃ e ∈ mapEntries sampleBothConfig.Namespaces, ∃ ns, e.2 = some ns ∧
        ns.DefaultBucket ≠ none ∧ ns.DynamicBucketTemplate ≠ none ∧
        sampleBothConfig.applyDefaults = .error (Panic.message (bothBucketsMessage e.1))) ∧
    (sampleConfig.entriesNonNil ∧ ¬ sampleConfig.someNamespaceHasBoth ∧
      sampleConfig.applyDefaults =
        .ok { GlobalDefaultBucket := some (sampleBucket 0 0).applyDefaults
              ListenerBufferSize := 10000
              Namespaces := some [("n",
                some { DefaultBucket := none
                       DynamicBucketTemplate := some (sampleBucket 1 1).applyDefaults
                       MaxDynamicBuckets := 2
                       Buckets := some [("a", some (sampleBucket 10 0).applyDefaults)] })] }) := by
  have hnn : sampleBothConfig.entriesNonNil := by
    simp [ServiceConfig.entriesNonNil, namespacesNonNil, sampleBothConfig, mapEntries]
  have hb : sampleBothConfig.someNamespaceHasBoth := by
    simp [ServiceConfig.someNamespaceHasBoth, namespacesHaveBoth, sampleBothConfig, mapEntries]
  have hnn2 : sampleConfig.entriesNonNil := by
    simp [ServiceConfig.entriesNonNil, namespacesNonNil, sampleConfig, mapEntries]
  have hb2 : ¬ sampleConfig.someNamespaceHasBoth := by
    simp [ServiceConfig.someNamespaceHasBoth, namespacesHaveBoth, sampleConfig, mapEntries]
  exact ⟨⟨hnn, hb, (applyDefaults_panics_iff_both sampleBothConfig hnn).2.1 hb⟩,
    hnn2, hb2, (applyDefaults_panics_iff_both sampleConfig hnn2).2.2 hb2⟩

/-- Applying the defaults commutes with collecting the present bucket configs. -/
theorem presentBuckets_applyDefaults (l : List (Option BucketConfig)) :
    presentBuckets (l.map applyDefaultsIfPresent) =
      (presentBuckets l).map BucketConfig.applyDefaults := by
  induction l with
  | nil => rfl
  | cons o rest ih =>
    simp only [presentBuckets] at ih
    cases o with
    | none => simpa [presentBuckets, applyDefaultsIfPresent] using ih
    | some b => simpa [presentBuckets, applyDefaultsIfPresent] using ih

/-- The bucket configs of a defaulted namespace are the defaulted bucket configs of that
same namespace. -/
theorem withDefaults_bucketConfigs (ns : NamespaceConfig) :
    ns.withDefaults.bucketConfigs = ns.bucketConfigs.map BucketConfig.applyDefaults := by
  have h := presentBuckets_applyDefaults
    (ns.DefaultBucket :: ns.DynamicBucketTemplate :: (mapEntries ns.Buckets).map Prod.snd)
  have hsome : ∀ l : List (String × Option BucketConfig), mapEntries (some l) = l :=
    fun _ => rfl
  simp only [NamespaceConfig.bucketConfigs, NamespaceConfig.withDefaults, hsome]
  rw [← h]
  simp [Function.comp_def]

/-- The bucket configs of a defaulted namespace map are the defaulted bucket configs of
the map. -/
theorem namespacesBucketConfigs_withDefaults (m : List (String × Option NamespaceConfig)) :
    namespacesBucketConfigs (m.map fun e => (e.1, e.2.map NamespaceConfig.withDefaults)) =
      (namespacesBucketConfigs m).map BucketConfig.applyDefaults := by
  induction m with
  | nil => rfl
  | cons e rest ih =>
    obtain ⟨name, ons⟩ := e
    simp only [namespacesBucketConfigs] at ih
    cases ons with
    | none => simpa [namespacesBucketConfigs] using ih
    | some ns =>
      simp only [namespacesBucketConfigs, List.map_cons, Option.map_some', List.filterMap_cons,
        List.flatMap_cons, List.map_append, withDefaults_bucketConfigs]
      rw [ih]

/-- When `ServiceConfig.applyDefaults` returns, the bucket configs of the result are those
of the input with `BucketConfig.applyDefaults` applied, in the same order. -/
theorem applyDefaults_bucketConfigs (s s' : ServiceConfig) (h : s.applyDefaults = .ok s') :
    s'.bucketConfigs = s.bucketConfigs.map BucketConfig.applyDefaults := by
  have hg := presentBuckets_applyDefaults [s.GlobalDefaultBucket]
  cases hN : s.Namespaces with
  | none =>
    simp only [ServiceConfig.applyDefaults, hN, Except.ok.injEq] at h
    subst h
    simp only [ServiceConfig.bucketConfigs, hN, mapEntries, namespacesBucketConfigs,
      List.map_append]
    simpa using hg
  | some m =>
    simp only [ServiceConfig.applyDefaults, hN] at h
    cases hm : applyDefaultsNamespaces m with
    | error p => simp [hm] at h
    | ok m' =>
      simp only [hm, Except.ok.injEq] at h
      subst h
      obtain ⟨_, hm'⟩ := applyDefaultsNamespaces_ok_inv m m' hm
      simp only [ServiceConfig.bucketConfigs, hN, mapEntries, List.map_append, hm',
        namespacesBucketConfigs_withDefaults]
      congr 1

/-- C3, as the claim states it, fails: a config whose global default bucket has Size -5 and
FillRate -1 is accepted, and the result still holds that bucket config. -/
theorem applyDefaults_accepts_negative_size :
    negativeSizeConfig.applyDefaults =
      .ok { GlobalDefaultBucket := some
              { Size := -5, FillRate := -1, WaitTimeoutMillis := 1000, MaxIdleMillis := -1,
                MaxDebtMillis := 10000, MaxTokensPerRequest := -1 }
            ListenerBufferSize := 10000
            Namespaces := some [] } ∧
    ¬ (∀ s', negativeSizeConfig.applyDefaults = .ok s' →
        ∀ b ∈ s'.bucketConfigs, 0 < b.Size ∧ 0 < b.FillRate) := by
  have h : negativeSizeConfig.applyDefaults =
      .ok { GlobalDefaultBucket := some
              { Size := -5, FillRate := -1, WaitTimeoutMillis := 1000, MaxIdleMillis := -1,
                MaxDebtMillis := 10000, MaxTokensPerRequest := -1 }
            ListenerBufferSize := 10000
            Namespaces := some [] } := rfl
  refine ⟨h, fun hall => ?_⟩
  have hb := hall _ h
    { Size := -5, FillRate := -1, WaitTimeoutMillis := 1000, MaxIdleMillis := -1,
      MaxDebtMillis := 10000, MaxTokensPerRequest := -1 }
    (by simp [ServiceConfig.bucketConfigs, presentBuckets, mapEntries, namespacesBucketConfigs])
  simp at hb

/-- C3, amended: when `ServiceConfig.applyDefaults` returns, every bucket config of the
result is the defaulted one of the input, so it has Size and FillRate different from 0; a
negative Size or FillRate is kept, not rejected; and when no bucket config of the input has
a negative Size or FillRate, every bucket config of the result has Size > 0 and
FillRate > 0. -/
theorem applyDefaults_sizes_rates (s s' : ServiceConfig) (h : s.applyDefaults = .ok s') :
    s'.bucketConfigs = s.bucketConfigs.map BucketConfig.applyDefaults ∧
    (∀ b ∈ s'.bucketConfigs, b.Size ≠ 0 ∧ b.FillRate ≠ 0) ∧
    (∀ b ∈ s.bucketConfigs, ∀ v : Int, v < 0 →
      (b.Size = v → b.applyDefaults.Size = v) ∧
      (b.FillRate = v → b.applyDefaults.FillRate = v)) ∧
    ((∀ b ∈ s.bucketConfigs, 0 ≤ b.Size ∧ 0 ≤ b.FillRate) →
      ∀ b ∈ s'.bucketConfigs, 0 < b.Size ∧ 0 < b.FillRate) := by
  have hmap := applyDefaults_bucketConfigs s s' h
  refine ⟨hmap, ?_, ?_, ?_⟩
  · intro b hb
    rw [hmap] at hb
    obtain ⟨b0, _, rfl⟩ := List.mem_map.mp hb
    rw [applyDefaults_closed_form b0]
    constructor <;> simp only <;> split_ifs <;> simp_all
  · intro b _ v hv
    rw [applyDefaults_closed_form b]
    constructor <;> intro hbv <;> simp only <;> rw [if_neg (by omega)] <;> exact hbv
  · intro hpos b hb
    rw [hmap] at hb
    obtain ⟨b0, hb0, rfl⟩ := List.mem_map.mp hb
    obtain ⟨h1, h2⟩ := hpos b0 hb0
    rw [applyDefaults_closed_form b0]
    constructor <;> simp only <;> split_ifs <;> omega

/-- C3, amended, at a config with zero and positive sizes and rates: the call returns and
every bucket config of the result has a positive Size and FillRate. -/
theorem applyDefaults_sizes_rates_witness :
    sampleConfig.applyDefaults =
      .ok { GlobalDefaultBucket := some (sampleBucket 0 0).applyDefaults
            ListenerBufferSize := 10000
            Namespaces := some [("n",
              some { DefaultBucket := none
                     DynamicBucketTemplate := some (sampleBucket 1 1).applyDefaults
                     MaxDynamicBuckets := 2
                     Buckets := some [("a", some (sampleBucket 10 0).applyDefaults)] })] } ∧
    ∀ b ∈ [(sampleBucket 0 0).applyDefaults, (sampleBucket 1 1).applyDefaults,
        (sampleBucket 10 0).applyDefaults], 0 < b.Size ∧ 0 < b.FillRate := by
  have h : sampleConfig.applyDefaults =
      .ok { GlobalDefaultBucket := some (sampleBucket 0 0).applyDefaults
            ListenerBufferSize := 10000
            Namespaces := some [("n",
              some { DefaultBucket := none
                     DynamicBucketTemplate := some (sampleBucket 1 1).applyDefaults
                     MaxDynamicBuckets := 2
                     Buckets := some [("a", some (sampleBucket 10 0).applyDefaults)] })] } :=
    rfl
  refine ⟨h, ?_⟩
  have hall := (applyDefaults_sizes_rates sampleConfig _ h).2.2.2 (by decide)
  intro b hb
  exact hall b (by
    simpa [ServiceConfig.bucketConfigs, presentBuckets, mapEntries, namespacesBucketConfigs,
      NamespaceConfig.bucketConfigs] using hb)

/-- C4: `NewDefaultBucketConfig()` leaves `MaxTokensPerRequest` at 0, whereas
`BucketConfig.applyDefaults` on the zero config gives 50, the fill rate; the two values
differ in that field only, and applying the defaults to the former gives the latter. -/
theorem NewDefaultBucketConfig_maxTokensPerRequest_zero :
    NewDefaultBucketConfig.MaxTokensPerRequest = 0 ∧
    NewDefaultBucketConfig.FillRate = 50 ∧
    zeroBucketConfig.applyDefaults =
      { Size := 100, FillRate := 50, WaitTimeoutMillis := 1000, MaxIdleMillis := -1,
        MaxDebtMillis := 10000, MaxTokensPerRequest := 50 } ∧
    NewDefaultBucketConfig ≠ zeroBucketConfig.applyDefaults ∧
    { NewDefaultBucketConfig with MaxTokensPerRequest := 50 } = zeroBucketConfig.applyDefaults ∧
    NewDefaultBucketConfig.applyDefaults = zeroBucketConfig.applyDefaults := by
  decide

end quotaservice

/-! ## Theorems about events.go -/

namespace quotaservice

/-- With the consumer parked, `Emit` hands the event to it and logs nothing. -/
theorem Emit_of_parked (e : EventProducer) (event : Event)
    (h : e.c.receiver = Receiver.parked) :
    e.Emit event = ({ c := { e.c with receiver := Receiver.woken event } }, []) := by
  simp [EventProducer.Emit, Chan.trySend, h]

/-- With the consumer not parked and room in the buffer, `Emit` appends the event and logs
nothing. -/
theorem Emit_of_room (e : EventProducer) (event : Event)
    (h : e.c.receiver ≠ Receiver.parked) (hlt : e.c.buf.length < e.c.cap) :
    e.Emit event = ({ c := { e.c with buf := e.c.buf ++ [event] } }, []) := by
  cases hr : e.c.receiver with
  | parked => exact absurd hr h
  | busy => simp [EventProducer.Emit, Chan.trySend, hr, hlt]
  | woken v => simp [EventProducer.Emit, Chan.trySend, hr, hlt]

/-- With the consumer not parked and the buffer full, `Emit` changes nothing and logs the
drop. -/
theorem Emit_of_full (e : EventProducer) (event : Event)
    (h : e.c.receiver ≠ Receiver.parked) (hge : e.c.cap ≤ e.c.buf.length) :
    e.Emit event = (e, [bufferFullLine]) := by
  cases hr : e.c.receiver with
  | parked => exact absurd hr h
  | busy => simp [EventProducer.Emit, Chan.trySend, hr, Nat.not_lt.mpr hge]
  | woken v => simp [EventProducer.Emit, Chan.trySend, hr, Nat.not_lt.mpr hge]

/-- C5, as the claim states it, fails: on an unbuffered channel, the state a producer
registered with size 0 is in once its consumer has parked, the queue holds 0 of 0 events
and so is full, yet `Emit` does not leave the producer unchanged and drops nothing: it
logs no line and the event is in the hand of the woken consumer. -/
theorem Emit_hands_to_parked_consumer :
    registerListener 1000 (some quietListener) 0 = .ok (producerWith [] 0) ∧
    (Pipeline.after quietListener (producerWith [] 0) [Step.consume]).ep = parkedProducer ∧
    parkedProducer.c.cap ≤ parkedProducer.c.buf.length ∧
    (parkedProducer.Emit sampleMiss).1 ≠ parkedProducer ∧
    (parkedProducer.Emit sampleMiss).1.c.receiver = Receiver.woken sampleMiss ∧
    (parkedProducer.Emit sampleMiss).2 = [] := by
  refine ⟨rfl, rfl, by decide, by decide, rfl, rfl⟩

/-- C5, amended: `Emit` always returns. When the consumer is parked in its receive, `Emit`
hands the event straight to it, leaves the buffer as it is and logs nothing. Otherwise it
appends the event at the tail of the buffer and logs nothing when the buffer holds fewer
than `cap` events, and leaves the producer unchanged, logging the drop, when the buffer
is full. A buffer within its capacity stays within it. -/
theorem Emit_hands_appends_or_drops (e : EventProducer) (event : Event) :
    (e.c.receiver = Receiver.parked →
      e.Emit event = ({ c := { e.c with receiver := Receiver.woken event } }, [])) ∧
    (e.c.receiver ≠ Receiver.parked → e.c.buf.length < e.c.cap →
      e.Emit event = ({ c := { e.c with buf := e.c.buf ++ [event] } }, [])) ∧
    (e.c.receiver ≠ Receiver.parked → e.c.cap ≤ e.c.buf.length →
      e.Emit event = (e, [bufferFullLine])) ∧
    (e.Emit event).1.c.cap = e.c.cap ∧
    (e.c.buf.length ≤ e.c.cap → (e.Emit event).1.c.buf.length ≤ e.c.cap) := by
  refine ⟨Emit_of_parked e event, Emit_of_room e event, Emit_of_full e event, ?_, ?_⟩
  · by_cases hp : e.c.receiver = Receiver.parked
    · rw [Emit_of_parked e event hp]
    · by_cases hlt : e.c.buf.length < e.c.cap
      · rw [Emit_of_room e event hp hlt]
      · rw [Emit_of_full e event hp (Nat.not_lt.mp hlt)]
  · intro hle
    by_cases hp : e.c.receiver = Receiver.parked
    · rw [Emit_of_parked e event hp]
      exact hle
    · by_cases hlt : e.c.buf.length < e.c.cap
      · rw [Emit_of_room e event hp hlt]
        simp only [List.length_append, List.length_singleton]
        omega
      · rw [Emit_of_full e event hp (Nat.not_lt.mp hlt)]
        exact hle

/-- C5, amended, at three producers: with capacity 1 and the consumer busy the first
`Emit` enqueues the event and the next one finds the buffer full and changes nothing; with
the consumer parked on an unbuffered channel `Emit` hands the event over. -/
theorem Emit_hands_appends_or_drops_witness :
    (producerWith [] 1).Emit sampleMiss = (producerWith [sampleMiss] 1, []) ∧
    (producerWith [sampleMiss] 1).Emit sampleServed =
      (producerWith [sampleMiss] 1, [bufferFullLine]) ∧
    parkedProducer.Emit sampleMiss =
      ({ c := { buf := [], cap := 0, receiver := Receiver.woken sampleMiss } }, []) :=
  ⟨(Emit_hands_appends_or_drops (producerWith [] 1) sampleMiss).2.1 (by decide) (by decide),
    (Emit_hands_appends_or_drops (producerWith [sampleMiss] 1) sampleServed).2.2.1
      (by decide) (by decide),
    (Emit_hands_appends_or_drops parkedProducer sampleMiss).1 rfl⟩

/-- The accounting invariant of the pipeline: the events passed to the listener followed
by the pending ones are the ones whose send went through; every emitted event went through
or was logged as dropped; and the buffer is empty while the consumer is parked. -/
theorem Pipeline.step_invariant (l : Listener) (s : Pipeline) (st : Step)
    (h1 : s.passed ++ s.ep.c.pending = s.enqueued)
    (h2 : s.log.length + s.enqueued.length = s.emitted.length)
    (h3 : s.ep.c.receiver = Receiver.parked → s.ep.c.buf = []) :
    (s.step l st).passed ++ (s.step l st).ep.c.pending = (s.step l st).enqueued ∧
    (s.step l st).log.length + (s.step l st).enqueued.length = (s.step l st).emitted.length ∧
    ((s.step l st).ep.c.receiver = Receiver.parked → (s.step l st).ep.c.buf = []) := by
  unfold Pipeline.step
  cases hc : s.crashed with
  | some p => exact ⟨h1, h2, h3⟩
  | none =>
    cases st with
    | emit event =>
      simp only [Pipeline.enqueued, Pipeline.emitted] at h1 h2 ⊢
      by_cases hp : s.ep.c.receiver = Receiver.parked
      · have hbuf := h3 hp
        rw [Emit_of_parked s.ep event hp]
        simp only [Chan.pending, hp, hbuf] at h1 ⊢
        refine ⟨?_, ?_, fun hcontra => by cases hcontra⟩
        · simp only [List.isEmpty_nil, List.filter_append, List.map_append, List.filter_cons,
            List.filter_nil, if_true, List.map_cons, List.map_nil]
          rw [← h1]
          simp
        · simp only [List.isEmpty_nil, List.filter_append, List.map_append, List.filter_cons,
            List.filter_nil, if_true, List.map_cons, List.map_nil, List.length_append,
            List.length_singleton, List.append_nil]
          omega
      · by_cases hlt : s.ep.c.buf.length < s.ep.c.cap
        · rw [Emit_of_room s.ep event hp hlt]
          refine ⟨?_, ?_, fun hcontra => absurd hcontra hp⟩
          · simp only [List.isEmpty_nil, List.filter_append, List.map_append,
              List.filter_cons, List.filter_nil, if_true, List.map_cons, List.map_nil]
            rw [← h1]
            cases hr : s.ep.c.receiver <;> simp [Chan.pending, hr]
          · simp only [List.isEmpty_nil, List.filter_append, List.map_append,
              List.filter_cons, List.filter_nil, if_true, List.map_cons, List.map_nil,
              List.length_append, List.length_singleton, List.append_nil]
            omega
        · rw [Emit_of_full s.ep event hp (Nat.not_lt.mp hlt)]
          have hflag : (List.filter Prod.snd [(event, [bufferFullLine].isEmpty)]) = [] := rfl
          refine ⟨?_, ?_, h3⟩
          · simp only [List.filter_append, List.map_append, hflag, List.map_nil,
              List.append_nil]
            exact h1
          · simp only [List.filter_append, List.map_append, hflag, List.map_nil,
              List.append_nil, List.length_append, List.length_singleton, List.map_cons,
              List.length_cons, List.length_nil]
            omega
    | consume =>
      cases hr : s.ep.c.receiver with
      | woken v =>
        simp only [Chan.recv, hr]
        refine ⟨?_, h2, fun hcontra => by cases hcontra⟩
        simp only [Chan.pending, hr, Pipeline.enqueued] at h1 ⊢
        rw [← h1]
        simp
      | parked =>
        simp only [Chan.recv, hr]
        exact ⟨h1, h2, fun _ => h3 hr⟩
      | busy =>
        cases hb : s.ep.c.buf with
        | nil =>
          simp only [Chan.recv, hr, hb]
          refine ⟨?_, h2, fun _ => trivial⟩
          simp only [Chan.pending, hr, hb, Pipeline.enqueued] at h1 ⊢
          exact h1
        | cons event rest =>
          simp only [Chan.recv, hr, hb]
          refine ⟨?_, h2, fun hcontra => (by cases hcontra)⟩
          simp only [Chan.pending, hr, hb, Pipeline.enqueued] at h1 ⊢
          rw [← h1]
          simp

/-- After the program crashed no step changes the pipeline. -/
theorem Pipeline.run_of_crashed (l : Listener) (s : Pipeline) (steps : List Step) (p : Panic)
    (h : s.crashed = some p) : Pipeline.run l s steps = s := by
  induction steps with
  | nil => rfl
  | cons st steps ih =>
    have hst : s.step l st = s := by simp [Pipeline.step, h]
    simpa [Pipeline.run, hst] using ih

/-- The accounting invariant holds after every run that starts in a state where it holds. -/
theorem Pipeline.run_invariant (l : Listener) (steps : List Step) (s : Pipeline)
    (h1 : s.passed ++ s.ep.c.pending = s.enqueued)
    (h2 : s.log.length + s.enqueued.length = s.emitted.length)
    (h3 : s.ep.c.receiver = Receiver.parked → s.ep.c.buf = []) :
    (Pipeline.run l s steps).passed ++ (Pipeline.run l s steps).ep.c.pending =
      (Pipeline.run l s steps).enqueued ∧
    (Pipeline.run l s steps).log.length + (Pipeline.run l s steps).enqueued.length =
      (Pipeline.run l s steps).emitted.length := by
  induction steps generalizing s with
  | nil => exact ⟨h1, h2⟩
  | cons st steps ih =>
    obtain ⟨k1, k2, k3⟩ := Pipeline.step_invariant l s st h1 h2 h3
    exact ih (s.step l st) k1 k2 k3

/-- A step of a pipeline that has not crashed records the event of an `emit` and leaves the
record of the emitted events alone otherwise. -/
theorem Pipeline.step_emitted (l : Listener) (s : Pipeline) (st : Step)
    (hc : s.crashed = none) : (s.step l st).emitted = s.emitted ++ emittedEvents [st] := by
  cases st with
  | emit event => simp [Pipeline.step, hc, Pipeline.emitted, emittedEvents]
  | consume =>
    simp only [Pipeline.step, hc, Pipeline.emitted, emittedEvents, List.append_nil]
    split <;> rfl

/-- A run that ends without a crash has executed every `emit` step. -/
theorem Pipeline.run_emitted (l : Listener) (steps : List Step) (s : Pipeline)
    (h : (Pipeline.run l s steps).crashed = none) :
    (Pipeline.run l s steps).emitted = s.emitted ++ emittedEvents steps := by
  induction steps generalizing s with
  | nil => simp [Pipeline.run, emittedEvents]
  | cons st steps ih =>
    cases hc : s.crashed with
    | some p =>
      rw [Pipeline.run_of_crashed l s _ p hc, hc] at h
      cases h
    | none =>
      have hrun : Pipeline.run l s (st :: steps) = Pipeline.run l (s.step l st) steps := rfl
      rw [hrun] at h ⊢
      rw [ih (s.step l st) h, Pipeline.step_emitted l s st hc]
      cases st <;> simp [emittedEvents]

/-- C6: after any sequence of `Emit` steps and consumer steps on a freshly registered
producer, of any buffer size the runtime serves, 0 included, the events passed to the
listener, followed by those still pending in the channel, are exactly the events whose send
went through, the non-dropped ones, in send order; they form an order-preserving
subsequence of the emitted events; every emitted event went through or was logged as
dropped; and the events passed to the listener are the emitted list when no `Emit` dropped
its event and the channel is drained. While the program has not crashed, the emitted events
are those of all the `emit` steps. -/
theorem listener_sees_emission_order (makeLimit : Nat) (l : Listener) (bufsize : Int)
    (ep : EventProducer) (h : registerListener makeLimit (some l) bufsize = .ok ep)
    (steps : List Step) :
    (Pipeline.after l ep steps).passed ++ (Pipeline.after l ep steps).ep.c.pending =
      (Pipeline.after l ep steps).enqueued ∧
    (Pipeline.after l ep steps).enqueued.Sublist (Pipeline.after l ep steps).emitted ∧
    (Pipeline.after l ep steps).passed.Sublist (Pipeline.after l ep steps).emitted ∧
    (Pipeline.after l ep steps).log.length + (Pipeline.after l ep steps).enqueued.length =
      (Pipeline.after l ep steps).emitted.length ∧
    ((Pipeline.after l ep steps).noneDropped → (Pipeline.after l ep steps).drained →
      (Pipeline.after l ep steps).passed = (Pipeline.after l ep steps).emitted) ∧
    ((Pipeline.after l ep steps).crashed = none →
      (Pipeline.after l ep steps).emitted = emittedEvents steps) := by
  have hep : ep.c.buf = [] ∧ ep.c.receiver = Receiver.busy := by
    simp only [registerListener] at h
    split_ifs at h
    simp only [Except.ok.injEq] at h
    rw [← h]
    exact ⟨rfl, rfl⟩
  obtain ⟨h1, h2⟩ := Pipeline.run_invariant l steps (Pipeline.start ep)
    (by simp [Pipeline.start, Pipeline.enqueued, Chan.pending, hep.1, hep.2])
    (by simp [Pipeline.start, Pipeline.enqueued, Pipeline.emitted])
    (fun _ => hep.1)
  have hsub : (Pipeline.after l ep steps).enqueued.Sublist
      (Pipeline.after l ep steps).emitted :=
    List.Sublist.map _ (List.filter_sublist _)
  refine ⟨h1, hsub, ?_, h2, ?_, ?_⟩
  · refine List.Sublist.trans ?_ hsub
    have := List.sublist_append_left (Pipeline.after l ep steps).passed
      (Pipeline.after l ep steps).ep.c.pending
    simp only [Pipeline.after] at this ⊢
    rwa [h1] at this
  · intro hnd hdr
    have hall : (Pipeline.after l ep steps).enqueued = (Pipeline.after l ep steps).emitted := by
      simp only [Pipeline.enqueued, Pipeline.emitted]
      rw [List.filter_eq_self.mpr hnd]
    simp only [Pipeline.after, Pipeline.drained] at hdr hall ⊢
    rw [← hall, ← h1, hdr, List.append_nil]
  · intro hc
    have := Pipeline.run_emitted l steps (Pipeline.start ep) hc
    simpa [Pipeline.start, Pipeline.emitted, Pipeline.after] using this

/-- C6, at a producer registered with buffer size 0 and the steps consume, emit, emit,
consume: the consumer parks, the first event is handed to it, the second is dropped, and
the listener is passed the first one; the statement of the theorem holds there. -/
theorem listener_sees_emission_order_witness :
    registerListener 1000 (some quietListener) 0 = .ok (producerWith [] 0) ∧
    (Pipeline.after quietListener (producerWith [] 0)
      [Step.consume, Step.emit sampleMiss, Step.emit sampleServed, Step.consume]).passed =
        [sampleMiss] ∧
    (Pipeline.after quietListener (producerWith [] 0)
      [Step.consume, Step.emit sampleMiss, Step.emit sampleServed, Step.consume]).emitted =
        [sampleMiss, sampleServed] ∧
    (Pipeline.after quietListener (producerWith [] 0)
      [Step.consume, Step.emit sampleMiss, Step.emit sampleServed, Step.consume]).log =
        [bufferFullLine] ∧
    (Pipeline.after quietListener (producerWith [] 0)
      [Step.consume, Step.emit sampleMiss, Step.emit sampleServed, Step.consume]).passed.Sublist
      (Pipeline.after quietListener (producerWith [] 0)
        [Step.consume, Step.emit sampleMiss, Step.emit sampleServed, Step.consume]).emitted :=
  ⟨rfl, rfl, rfl, rfl,
    (listener_sees_emission_order 1000 quietListener 0 (producerWith [] 0) rfl
      [Step.consume, Step.emit sampleMiss, Step.emit sampleServed, Step.consume]).2.2.1⟩

/-- The consumer loop on a queue the listener accepts throughout calls it on every event
and ends waiting. -/
theorem notifyLoop_all_ok (l : Listener) (queue : List Event)
    (h : ∀ e ∈ queue, l e = .ok ()) :
    notifyLoop l queue = { calls := queue, rest := [], ending := LoopEnd.waiting } := by
  induction queue with
  | nil => rfl
  | cons event queue ih =>
    have hq : ∀ e ∈ queue, l e = .ok () := fun e he => h e (List.mem_cons_of_mem _ he)
    simp [notifyLoop, h event (List.mem_cons_self _ _), ih hq]

/-- The consumer loop stops at the first event the listener panics on: the events behind
it stay in the channel. -/
theorem notifyLoop_first_failure (l : Listener) (pre post : List Event) (event : Event)
    (p : Panic) (hpre : ∀ e ∈ pre, l e = .ok ()) (hev : l event = .error p) :
    notifyLoop l (pre ++ event :: post) =
      { calls := pre ++ [event], rest := post, ending := LoopEnd.panicked p } := by
  induction pre with
  | nil => simp [notifyLoop, hev]
  | cons e pre ih =>
    have hq : ∀ x ∈ pre, l x = .ok () := fun x hx => hpre x (List.mem_cons_of_mem _ hx)
    simp [notifyLoop, hpre e (List.mem_cons_self _ _), ih hq]

/-- C7, as the claim states it, fails: with a bucket-miss event and a tokens-served event
queued and a listener that panics on the first, `notifyListeners` ends with that panic and
never calls the listener on the second event, which stays in the channel. -/
theorem notifyListeners_does_not_recover :
    failOnMiss sampleMiss = .error (Panic.message "listener failed") ∧
    failOnMiss sampleServed = .ok () ∧
    (producerWith [sampleMiss, sampleServed] 10).notifyListeners failOnMiss =
      { calls := [sampleMiss], rest := [sampleServed],
        ending := LoopEnd.panicked (Panic.message "listener failed") } ∧
    sampleServed ∉
      ((producerWith [sampleMiss, sampleServed] 10).notifyListeners failOnMiss).calls := by
  refine ⟨rfl, rfl, rfl, ?_⟩
  have h : ((producerWith [sampleMiss, sampleServed] 10).notifyListeners failOnMiss).calls =
      [sampleMiss] := rfl
  rw [h]
  decide

/-- C7, amended: `notifyListeners` calls the listener on the queued events in order. When
the listener panics on none of them it is called on every one. When it panics on one, the
panic is not caught: the loop ends with it, the listener has been called on the events up
to and including that one, and on none of the later events, which stay in the channel. -/
theorem notifyListeners_stops_at_first_failure (ep : EventProducer) (l : Listener) :
    ((∀ e ∈ ep.c.buf, l e = .ok ()) →
      ep.notifyListeners l = { calls := ep.c.buf, rest := [], ending := LoopEnd.waiting }) ∧
    (∀ (pre post : List Event) (event : Event) (p : Panic),
      ep.c.buf = pre ++ event :: post → (∀ e ∈ pre, l e = .ok ()) → l event = .error p →
      ep.notifyListeners l =
        { calls := pre ++ [event], rest := post, ending := LoopEnd.panicked p }) := by
  refine ⟨fun h => notifyLoop_all_ok l ep.c.buf h, ?_⟩
  intro pre post event p hbuf hpre hev
  simp only [EventProducer.notifyListeners, hbuf]
  exact notifyLoop_first_failure l pre post event p hpre hev

/-- C7, amended, at a queue of a tokens-served, a bucket-miss and a tokens-served event
with a listener that panics on bucket misses: the listener is called on the first two
events and the third is left in the channel. -/
theorem notifyListeners_stops_at_first_failure_witness :
    (producerWith [sampleServed, sampleMiss, sampleServed] 10).notifyListeners failOnMiss =
      { calls := [sampleServed] ++ [sampleMiss], rest := [sampleServed],
        ending := LoopEnd.panicked (Panic.message "listener failed") } :=
  (notifyListeners_stops_at_first_failure
    (producerWith [sampleServed, sampleMiss, sampleServed] 10) failOnMiss).2
    [sampleServed] [sampleServed] sampleMiss (Panic.message "listener failed") rfl
    (by
      intro e he
      rw [List.mem_singleton.mp he]
      rfl)
    rfl

/-- C8: every event constructor yields an event whose accessors return the arguments of the
constructor and the matching type, with zero for the fields the type does not use. -/
theorem event_constructors_accessors (namespace_ bucketName : String) (dynamic : Bool)
    (numTokens waitTime : Int) :
    ((newTokensServedEvent namespace_ bucketName dynamic numTokens waitTime).EventType =
        EVENT_TOKENS_SERVED ∧
      (newTokensServedEvent namespace_ bucketName dynamic numTokens waitTime).Namespace =
        namespace_ ∧
      (newTokensServedEvent namespace_ bucketName dynamic numTokens waitTime).BucketName =
        bucketName ∧
      (newTokensServedEvent namespace_ bucketName dynamic numTokens waitTime).Dynamic =
        dynamic ∧
      (newTokensServedEvent namespace_ bucketName dynamic numTokens waitTime).NumTokens =
        numTokens ∧
      (newTokensServedEvent namespace_ bucketName dynamic numTokens waitTime).WaitTime =
        waitTime) ∧
    ((newTimedOutEvent namespace_ bucketName dynamic numTokens).EventType =
        EVENT_TIMEOUT_SERVING_TOKENS ∧
      (newTimedOutEvent namespace_ bucketName dynamic numTokens).Namespace = namespace_ ∧
      (newTimedOutEvent namespace_ bucketName dynamic numTokens).BucketName = bucketName ∧
      (newTimedOutEvent namespace_ bucketName dynamic numTokens).Dynamic = dynamic ∧
      (newTimedOutEvent namespace_ bucketName dynamic numTokens).NumTokens = numTokens ∧
      (newTimedOutEvent namespace_ bucketName dynamic numTokens).WaitTime = 0) ∧
    ((newTooManyTokensRequestedEvent namespace_ bucketName dynamic numTokens).EventType =
        EVENT_TOO_MANY_TOKENS_REQUESTED ∧
      (newTooManyTokensRequestedEvent namespace_ bucketName dynamic numTokens).Namespace =
        namespace_ ∧
      (newTooManyTokensRequestedEvent namespace_ bucketName dynamic numTokens).BucketName =
        bucketName ∧
      (newTooManyTokensRequestedEvent namespace_ bucketName dynamic numTokens).Dynamic =
        dynamic ∧
      (newTooManyTokensRequestedEvent namespace_ bucketName dynamic numTokens).NumTokens =
        numTokens ∧
      (newTooManyTokensRequestedEvent namespace_ bucketName dynamic numTokens).WaitTime = 0) ∧
    ((newBucketMissedEvent namespace_ bucketName dynamic).EventType = EVENT_BUCKET_MISS ∧
      (newBucketMissedEvent namespace_ bucketName dynamic).Namespace = namespace_ ∧
      (newBucketMissedEvent namespace_ bucketName dynamic).BucketName = bucketName ∧
      (newBucketMissedEvent namespace_ bucketName dynamic).Dynamic = dynamic ∧
      (newBucketMissedEvent namespace_ bucketName dynamic).NumTokens = 0 ∧
      (newBucketMissedEvent namespace_ bucketName dynamic).WaitTime = 0) ∧
    ((newBucketCreatedEvent namespace_ bucketName dynamic).EventType = EVENT_BUCKET_CREATED ∧
      (newBucketCreatedEvent namespace_ bucketName dynamic).Namespace = namespace_ ∧
      (newBucketCreatedEvent namespace_ bucketName dynamic).BucketName = bucketName ∧
      (newBucketCreatedEvent namespace_ bucketName dynamic).Dynamic = dynamic ∧
      (newBucketCreatedEvent namespace_ bucketName dynamic).NumTokens = 0 ∧
      (newBucketCreatedEvent namespace_ bucketName dynamic).WaitTime = 0) ∧
    ((newBucketRemovedEvent namespace_ bucketName dynamic).EventType = EVENT_BUCKET_REMOVED ∧
      (newBucketRemovedEvent namespace_ bucketName dynamic).Namespace = namespace_ ∧
      (newBucketRemovedEvent namespace_ bucketName dynamic).BucketName = bucketName ∧
      (newBucketRemovedEvent namespace_ bucketName dynamic).Dynamic = dynamic ∧
      (newBucketRemovedEvent namespace_ bucketName dynamic).NumTokens = 0 ∧
      (newBucketRemovedEvent namespace_ bucketName dynamic).WaitTime = 0) := by
  refine ⟨⟨rfl, rfl, rfl, rfl, rfl, rfl⟩, ⟨rfl, rfl, rfl, rfl, rfl, rfl⟩,
    ⟨rfl, rfl, rfl, rfl, rfl, rfl⟩, ⟨rfl, rfl, rfl, rfl, rfl, rfl⟩,
    ⟨rfl, rfl, rfl, rfl, rfl, rfl⟩, ⟨rfl, rfl, rfl, rfl, rfl, rfl⟩⟩

end quotaservice

/-! ## Theorems about admin/namespaces.go -/

namespace admin

/-- C9: for a request whose method is not GET, DELETE, PUT or POST, `ServeHTTP` writes one
error, of status 400 and naming the method, and calls none of the operations of
`Administrable`: the calls and the engine are unchanged. -/
theorem ServeHTTP_unknown_method {σ SC NC Body : Type} (env : Env SC NC Body)
    (a : namespacesAPIHandler σ SC NC) (x : Exchange σ SC NC) (r : Request Body)
    (h : r.Method ≠ "GET" ∧ r.Method ≠ "DELETE" ∧ r.Method ≠ "PUT" ∧ r.Method ≠ "POST") :
    (a.ServeHTTP env x r).w =
      x.w ++ [Written.jsonError (HttpError.mk ("Unknown method " ++ r.Method) 400)] ∧
    (a.ServeHTTP env x r).calls = x.calls ∧
    (a.ServeHTTP env x r).engine = x.engine := by
  obtain ⟨h1, h2, h3, h4⟩ := h
  simp [namespacesAPIHandler.ServeHTTP, h1, h2, h3, h4, writeJSONError,
    http.StatusBadRequest]

/-- C9, at a PATCH request: one error of status 400 is written and no call is made. -/
theorem ServeHTTP_unknown_method_witness :
    (sampleHandler.ServeHTTP sampleEnv sampleExchange (sampleRequest "PATCH" "/api/n")).w =
      [Written.jsonError (HttpError.mk "Unknown method PATCH" 400)] ∧
    (sampleHandler.ServeHTTP sampleEnv sampleExchange (sampleRequest "PATCH" "/api/n")).calls =
      [] :=
  ⟨(ServeHTTP_unknown_method sampleEnv sampleHandler sampleExchange
      (sampleRequest "PATCH" "/api/n") (by decide)).1,
    (ServeHTTP_unknown_method sampleEnv sampleHandler sampleExchange
      (sampleRequest "PATCH" "/api/n") (by decide)).2.1⟩

/-- C10: for a GET request the handler calls `Configs` once and nothing else, so no
mutating operation. With `ns` the namespace read from the path and `cfgs` the snapshot
returned by `Configs`: when `ns` is empty or the global namespace name it writes the whole
service config; otherwise, when `cfgs.Namespaces[ns]` is non-nil it writes exactly
that namespace config and no error, and when it is nil it writes one error of status 404
and no config. -/
theorem ServeHTTP_get {σ SC NC Body : Type} (env : Env SC NC Body)
    (a : namespacesAPIHandler σ SC NC) (x : Exchange σ SC NC) (r : Request Body)
    (h : r.Method = "GET") :
    (a.ServeHTTP env x r).calls = x.calls ++ [Call.Configs] ∧
    Call.mutating (Call.Configs : Call NC) = false ∧
    (a.ServeHTTP env x r).engine = (a.a.Configs x.engine).2 ∧
    (requestNamespace r = "" ∨ requestNamespace r = env.GlobalNamespace →
      (a.ServeHTTP env x r).w =
        x.w ++ [Written.json (Payload.serviceConfig (a.a.Configs x.engine).1)]) ∧
    (¬ (requestNamespace r = "" ∨ requestNamespace r = env.GlobalNamespace) →
      (∀ c, env.Namespaces (a.a.Configs x.engine).1 (requestNamespace r) = some c →
        (a.ServeHTTP env x r).w = x.w ++ [Written.json (Payload.namespaceConfig c)]) ∧
      (env.Namespaces (a.a.Configs x.engine).1 (requestNamespace r) = none →
        (a.ServeHTTP env x r).w =
          x.w ++ [Written.jsonError
            (HttpError.mk ("Unable to locate namespace " ++ requestNamespace r) 404)])) := by
  by_cases hg : requestNamespace r = "" ∨ requestNamespace r = env.GlobalNamespace
  · refine ⟨?_, rfl, ?_, fun _ => ?_, fun hn => absurd hg hn⟩ <;>
      simp [namespacesAPIHandler.ServeHTTP, h, writeNamespace, if_pos hg, writeJSON]
  · cases hl : env.Namespaces (a.a.Configs x.engine).1 (requestNamespace r) with
    | none =>
      refine ⟨?_, rfl, ?_, fun hy => absurd hy hg, fun _ => ⟨fun c hc => ?_, fun _ => ?_⟩⟩
      · simp [namespacesAPIHandler.ServeHTTP, h, writeNamespace, if_neg hg, hl]
      · simp [namespacesAPIHandler.ServeHTTP, h, writeNamespace, if_neg hg, hl]
      · cases hc
      · simp [namespacesAPIHandler.ServeHTTP, h, writeNamespace, if_neg hg, hl,
          writeJSONError, http.StatusNotFound]
    | some c0 =>
      refine ⟨?_, rfl, ?_, fun hy => absurd hy hg, fun _ => ⟨fun c hc => ?_, fun hc => ?_⟩⟩
      · simp [namespacesAPIHandler.ServeHTTP, h, writeNamespace, if_neg hg, hl]
      · simp [namespacesAPIHandler.ServeHTTP, h, writeNamespace, if_neg hg, hl]
      · cases hc
        simp [namespacesAPIHandler.ServeHTTP, h, writeNamespace, if_neg hg, hl, writeJSON]
      · cases hc

/-- C10, at GET requests on an engine that holds the namespace `n`: the path `/api/n`
gives that namespace config, `/api/` the whole service config and `/api/m` an error of
status 404; each time `Configs` is the only call. -/
theorem ServeHTTP_get_witness :
    requestNamespace (sampleRequest "GET" "/api/n") = "n" ∧
    (sampleHandler.ServeHTTP sampleEnv sampleExchange (sampleRequest "GET" "/api/n")).calls =
      [Call.Configs] ∧
    (sampleHandler.ServeHTTP sampleEnv sampleExchange (sampleRequest "GET" "/api/n")).w =
      [Written.json (Payload.namespaceConfig ("n", 7))] ∧
    (sampleHandler.ServeHTTP sampleEnv sampleExchange (sampleRequest "GET" "/api/")).w =
      [Written.json (Payload.serviceConfig [("n", 7)])] ∧
    (sampleHandler.ServeHTTP sampleEnv sampleExchange (sampleRequest "GET" "/api/m")).w =
      [Written.jsonError (HttpError.mk "Unable to locate namespace m" 404)] := by
  have hn := ServeHTTP_get sampleEnv sampleHandler sampleExchange
    (sampleRequest "GET" "/api/n") rfl
  have hroot := ServeHTTP_get sampleEnv sampleHandler sampleExchange
    (sampleRequest "GET" "/api/") rfl
  have hm := ServeHTTP_get sampleEnv sampleHandler sampleExchange
    (sampleRequest "GET" "/api/m") rfl
  refine ⟨by decide, hn.1, ?_, ?_, ?_⟩
  · exact (hn.2.2.2.2 (by decide)).1 ("n", 7) (by decide)
  · exact hroot.2.2.2.1 (by decide)
  · exact (hm.2.2.2.2 (by decide)).2 (by decide)

end admin

/-! ## Further theorems about configs.go -/

namespace quotaservice

/-- When `ServiceConfig.applyDefaults` returns, the result differs from the input at most
in the global default bucket and in the namespace map. -/
theorem applyDefaults_ok_fields (s s' : ServiceConfig) (h : s.applyDefaults = .ok s') :
    s'.ListenerBufferSize = s.ListenerBufferSize ∧
    s'.GlobalDefaultBucket = s.GlobalDefaultBucket.map BucketConfig.applyDefaults ∧
    (s.Namespaces = none → s'.Namespaces = none) ∧
    (∀ m, s.Namespaces = some m → ∃ m', applyDefaultsNamespaces m = .ok m' ∧
      s'.Namespaces = some m') := by
  cases hN : s.Namespaces with
  | none =>
    simp only [ServiceConfig.applyDefaults, hN, Except.ok.injEq] at h
    subst h
    exact ⟨rfl, applyDefaultsIfPresent_eq_map _, fun _ => rfl, fun m hm => by cases hm⟩
  | some m =>
    simp only [ServiceConfig.applyDefaults, hN] at h
    cases hm : applyDefaultsNamespaces m with
    | error p => simp [hm] at h
    | ok m' =>
      simp only [hm, Except.ok.injEq] at h
      subst h
      refine ⟨rfl, applyDefaultsIfPresent_eq_map _, fun hn => (by cases hn), fun m0 hm0 => ?_⟩
      simp only [Option.some.injEq] at hm0
      subst hm0
      exact ⟨m', hm, rfl⟩

/-- C13: `NewDefaultServiceConfig()` has `ListenerBufferSize` 10000, an allocated empty
namespace map and `NewDefaultBucketConfig()` as global default bucket;
`ServiceConfig.applyDefaults` returns a config with the `ListenerBufferSize` it was given;
so `readConfigFromBytes` returns one with 10000 whenever the YAML decoder leaves that field
of the config as it was, as for a document without the key. -/
theorem listenerBufferSize_default_kept :
    (NewDefaultServiceConfig.ListenerBufferSize = 10000 ∧
      NewDefaultServiceConfig.Namespaces = some [] ∧
      NewDefaultServiceConfig.GlobalDefaultBucket = some NewDefaultBucketConfig) ∧
    (∀ s s' : ServiceConfig, s.applyDefaults = .ok s' →
      s'.ListenerBufferSize = s.ListenerBufferSize) ∧
    (∀ (Bytes : Type) (unmarshal : Bytes → ServiceConfig → ServiceConfig) (bytes : Bytes)
      (s' : ServiceConfig),
      (∀ cfg, (unmarshal bytes cfg).ListenerBufferSize = cfg.ListenerBufferSize) →
      readConfigFromBytes unmarshal bytes = .ok s' → s'.ListenerBufferSize = 10000) := by
  refine ⟨⟨rfl, rfl, rfl⟩, fun s s' h => (applyDefaults_ok_fields s s' h).1, ?_⟩
  intro Bytes unmarshal bytes s' hkeep h
  simp only [readConfigFromBytes] at h
  rw [(applyDefaults_ok_fields _ s' h).1, hkeep]
  rfl

/-- C13, at a document without any key: `readConfigFromBytes` returns the default service
config without its global default bucket, with `ListenerBufferSize` 10000. -/
theorem listenerBufferSize_default_kept_witness :
    readConfigFromBytes unmarshalNothing "" = .ok emptyDocumentConfig ∧
    emptyDocumentConfig.ListenerBufferSize = 10000 :=
  ⟨rfl, listenerBufferSize_default_kept.2.2 String unmarshalNothing "" emptyDocumentConfig
    (fun _ => rfl) rfl⟩

/-- The defaulted bucket map stands in the entry-wise relation to a map without nil
entries. -/
theorem bucketEntries_defaulted (l : List (String × Option BucketConfig))
    (h : ∀ be ∈ l, be.2 ≠ none) :
    List.Forall₂ bucketEntryDefaulted l (l.map fun e => (e.1, applyDefaultsIfPresent e.2)) := by
  rw [List.forall₂_map_right_iff, List.forall₂_same]
  intro be hbe
  obtain ⟨name, ob⟩ := be
  cases ob with
  | none => exact absurd rfl (h _ hbe)
  | some b => exact ⟨rfl, b, rfl, rfl⟩

/-- C15: when `ServiceConfig.applyDefaults` returns, the global default bucket is absent
when it was absent and the defaulted one when present; a nil namespace map stays nil; and
the namespace map of the result has the same names in the same order, each namespace with
the same `MaxDynamicBuckets`, with default bucket and dynamic template absent when they
were absent and defaulted when present, and with an allocated bucket map (empty for a nil
one) holding the same bucket names, each with its defaulted bucket config. -/
theorem applyDefaults_structure_kept (s s' : ServiceConfig) (h : s.applyDefaults = .ok s') :
    s'.GlobalDefaultBucket = s.GlobalDefaultBucket.map BucketConfig.applyDefaults ∧
    (s'.Namespaces = none ↔ s.Namespaces = none) ∧
    (mapEntries s'.Namespaces).map Prod.fst = (mapEntries s.Namespaces).map Prod.fst ∧
    List.Forall₂ namespaceEntryDefaulted (mapEntries s.Namespaces) (mapEntries s'.Namespaces) ∧
    (∀ e' ∈ mapEntries s'.Namespaces, ∃ ns' bs', e'.2 = some ns' ∧ ns'.Buckets = some bs') ∧
    (∀ e ∈ mapEntries s.Namespaces, ∀ ns, e.2 = some ns → ns.Buckets = none →
      (e.1, some { DefaultBucket := ns.DefaultBucket.map BucketConfig.applyDefaults
                   DynamicBucketTemplate :=
                     ns.DynamicBucketTemplate.map BucketConfig.applyDefaults
                   MaxDynamicBuckets := ns.MaxDynamicBuckets
                   Buckets := some [] }) ∈ mapEntries s'.Namespaces) := by
  obtain ⟨_, hg, hnone, hsome⟩ := applyDefaults_ok_fields s s' h
  cases hN : s.Namespaces with
  | none =>
    have hN' := hnone hN
    refine ⟨hg, ?_, ?_, ?_, ?_, ?_⟩ <;> simp [hN', mapEntries]
  | some m =>
    obtain ⟨m', hm, hN'⟩ := hsome m hN
    obtain ⟨hall, hm'⟩ := applyDefaultsNamespaces_ok_inv m m' hm
    have hrel : List.Forall₂ namespaceEntryDefaulted m m' := by
      rw [hm', List.forall₂_map_right_iff, List.forall₂_same]
      intro e he
      obtain ⟨ns, hns, _, hbk⟩ := hall e he
      refine ⟨rfl, ns, ns.withDefaults, hns, by simp [hns], rfl,
        applyDefaultsIfPresent_eq_map _, applyDefaultsIfPresent_eq_map _, _, rfl, ?_⟩
      exact bucketEntries_defaulted _ hbk
    refine ⟨hg, by simp [hN'], ?_, ?_, ?_, ?_⟩
    · simp [hN', mapEntries, hm', Function.comp_def]
    · simpa [hN', mapEntries] using hrel
    · intro e' he'
      simp only [hN', mapEntries, hm', List.mem_map] at he'
      obtain ⟨e, he, rfl⟩ := he'
      obtain ⟨ns, hns, _, _⟩ := hall e he
      exact ⟨ns.withDefaults, _, by simp [hns], rfl⟩
    · intro e he ns hns hb
      simp only [hN', mapEntries, hm', List.mem_map]
      simp only [mapEntries] at he
      refine ⟨e, he, ?_⟩
      simp [hns, NamespaceConfig.withDefaults, hb, mapEntries, applyDefaultsIfPresent_eq_map]

/-- C15, at a config with a global default and one namespace holding a template and one
static bucket: the call returns, and the result has the same namespace name and stands in
the entry-wise relation to the input. -/
theorem applyDefaults_structure_kept_witness :
    sampleConfig.applyDefaults =
      .ok { GlobalDefaultBucket := some (sampleBucket 0 0).applyDefaults
            ListenerBufferSize := 10000
            Namespaces := some [("n",
              some { DefaultBucket := none
                     DynamicBucketTemplate := some (sampleBucket 1 1).applyDefaults
                     MaxDynamicBuckets := 2
                     Buckets := some [("a", some (sampleBucket 10 0).applyDefaults)] })] } ∧
    List.Forall₂ namespaceEntryDefaulted (mapEntries sampleConfig.Namespaces)
      [("n",
        some { DefaultBucket := none
               DynamicBucketTemplate := some (sampleBucket 1 1).applyDefaults
               MaxDynamicBuckets := 2
               Buckets := some [("a", some (sampleBucket 10 0).applyDefaults)] })] :=
  ⟨rfl, (applyDefaults_structure_kept sampleConfig _ rfl).2.2.2.1⟩

/-- The result of `BucketConfig.applyDefaults` has no zero field. -/
theorem applyDefaults_no_zero_field (b : BucketConfig) :
    b.applyDefaults.Size ≠ 0 ∧ b.applyDefaults.FillRate ≠ 0 ∧
    b.applyDefaults.WaitTimeoutMillis ≠ 0 ∧ b.applyDefaults.MaxIdleMillis ≠ 0 ∧
    b.applyDefaults.MaxDebtMillis ≠ 0 ∧ b.applyDefaults.MaxTokensPerRequest ≠ 0 := by
  rw [applyDefaults_closed_form b]
  refine ⟨?_, ?_, ?_, ?_, ?_, ?_⟩ <;> simp only <;> split_ifs <;> simp_all

/-- On a bucket config without a zero field `BucketConfig.applyDefaults` changes nothing. -/
theorem applyDefaults_of_no_zero_field (b : BucketConfig) (h1 : b.Size ≠ 0)
    (h2 : b.FillRate ≠ 0) (h3 : b.WaitTimeoutMillis ≠ 0) (h4 : b.MaxIdleMillis ≠ 0)
    (h5 : b.MaxDebtMillis ≠ 0) (h6 : b.MaxTokensPerRequest ≠ 0) : b.applyDefaults = b := by
  rw [applyDefaults_closed_form b]
  simp [h1, h2, h3, h4, h5, h6]

/-- C16: `BucketConfig.applyDefaults` is idempotent, and the result of one application has
no zero field. -/
theorem applyDefaults_idempotent (b : BucketConfig) :
    b.applyDefaults.applyDefaults = b.applyDefaults ∧
    (b.applyDefaults.Size ≠ 0 ∧ b.applyDefaults.FillRate ≠ 0 ∧
      b.applyDefaults.WaitTimeoutMillis ≠ 0 ∧ b.applyDefaults.MaxIdleMillis ≠ 0 ∧
      b.applyDefaults.MaxDebtMillis ≠ 0 ∧ b.applyDefaults.MaxTokensPerRequest ≠ 0) := by
  obtain ⟨h1, h2, h3, h4, h5, h6⟩ := applyDefaults_no_zero_field b
  exact ⟨applyDefaults_of_no_zero_field _ h1 h2 h3 h4 h5 h6, h1, h2, h3, h4, h5, h6⟩

end quotaservice

/-! ## Further theorems about events.go -/

namespace quotaservice

/-- The `switch` of `EventType.String` has a matching case exactly for the values 0 to 5. -/
theorem eventTypeCase_eq_none_iff (et : Int) :
    eventTypeCase et = none ↔ (et < 0 ∨ 5 < et) := by
  constructor
  · intro h
    by_contra hne
    have hsix : et = 0 ∨ et = 1 ∨ et = 2 ∨ et = 3 ∨ et = 4 ∨ et = 5 := by omega
    rcases hsix with rfl | rfl | rfl | rfl | rfl | rfl <;> cases h
  · intro h
    have h0 : et ≠ 0 := by omega
    have h1 : et ≠ 1 := by omega
    have h2 : et ≠ 2 := by omega
    have h3 : et ≠ 3 := by omega
    have h4 : et ≠ 4 := by omega
    have h5 : et ≠ 5 := by omega
    simp [eventTypeCase, EVENT_TOKENS_SERVED, EVENT_TIMEOUT_SERVING_TOKENS,
      EVENT_TOO_MANY_TOKENS_REQUESTED, EVENT_BUCKET_MISS, EVENT_BUCKET_CREATED,
      EVENT_BUCKET_REMOVED, h0, h1, h2, h3, h4, h5]

/-- Outside the six event types `EventType.String` never gets to its `panic`: whatever room
the stack has, formatting the argument re-enters the method until the stack is exhausted. -/
theorem EventType.String_of_no_case (stack : Nat) (et : EventType)
    (h : eventTypeCase et = none) : EventType.String stack et = .error Panic.stackOverflow := by
  induction stack with
  | zero => simp [EventType.String, h]
  | succ stack ih => simp [EventType.String, h, ih]

/-- C18: what the code does. `EventType.String` returns for each of the six event types,
the values 0 to 5, the name of its constant; the six names are pairwise distinct, so the
method is injective on the six. For every other integer, 6 for one, it returns no text,
but it does not panic either: the `panic` with its message is never reached, because
building the message formats the value with `%v`, which calls `String` again, and the
recursion ends in the fatal stack overflow, whatever room the stack has. -/
theorem EventType_String_never_reaches_panic (stack : Nat) :
    (EVENT_TOKENS_SERVED = 0 ∧ EVENT_TIMEOUT_SERVING_TOKENS = 1 ∧
      EVENT_TOO_MANY_TOKENS_REQUESTED = 2 ∧ EVENT_BUCKET_MISS = 3 ∧
      EVENT_BUCKET_CREATED = 4 ∧ EVENT_BUCKET_REMOVED = 5) ∧
    (EventType.String stack EVENT_TOKENS_SERVED = .ok "EVENT_TOKENS_SERVED" ∧
      EventType.String stack EVENT_TIMEOUT_SERVING_TOKENS = .ok "EVENT_TIMEOUT_SERVING_TOKENS" ∧
      EventType.String stack EVENT_TOO_MANY_TOKENS_REQUESTED =
        .ok "EVENT_TOO_MANY_TOKENS_REQUESTED" ∧
      EventType.String stack EVENT_BUCKET_MISS = .ok "EVENT_BUCKET_MISS" ∧
      EventType.String stack EVENT_BUCKET_CREATED = .ok "EVENT_BUCKET_CREATED" ∧
      EventType.String stack EVENT_BUCKET_REMOVED = .ok "EVENT_BUCKET_REMOVED") ∧
    ["EVENT_TOKENS_SERVED", "EVENT_TIMEOUT_SERVING_TOKENS", "EVENT_TOO_MANY_TOKENS_REQUESTED",
      "EVENT_BUCKET_MISS", "EVENT_BUCKET_CREATED", "EVENT_BUCKET_REMOVED"].Nodup ∧
    (∀ a b : EventType, 0 ≤ a → a ≤ 5 → 0 ≤ b → b ≤ 5 →
      EventType.String stack a = EventType.String stack b → a = b) ∧
    (∀ et : EventType, (et < 0 ∨ 5 < et) →
      EventType.String stack et = .error Panic.stackOverflow) ∧
    (∀ (et : EventType) (msg : String), (et < 0 ∨ 5 < et) →
      EventType.String stack et ≠ .error (Panic.message msg)) ∧
    (∀ et : EventType, (∃ name, EventType.String stack et = .ok name) ↔ (0 ≤ et ∧ et ≤ 5)) := by
  have hsix : ∀ et : Int, 0 ≤ et → et ≤ 5 →
      et = 0 ∨ et = 1 ∨ et = 2 ∨ et = 3 ∨ et = 4 ∨ et = 5 := by
    intro et h0 h5
    omega
  have hval : ∀ et : Int, 0 ≤ et → et ≤ 5 →
      EventType.String stack et = .ok
        (if et = 0 then "EVENT_TOKENS_SERVED"
         else if et = 1 then "EVENT_TIMEOUT_SERVING_TOKENS"
         else if et = 2 then "EVENT_TOO_MANY_TOKENS_REQUESTED"
         else if et = 3 then "EVENT_BUCKET_MISS"
         else if et = 4 then "EVENT_BUCKET_CREATED"
         else "EVENT_BUCKET_REMOVED") := by
    intro et h0 h5
    rcases hsix et h0 h5 with rfl | rfl | rfl | rfl | rfl | rfl <;>
      cases stack <;> rfl
  have hout : ∀ et : EventType, (et < 0 ∨ 5 < et) →
      EventType.String stack et = .error Panic.stackOverflow :=
    fun et h => EventType.String_of_no_case stack et ((eventTypeCase_eq_none_iff et).mpr h)
  have hnomsg : ∀ (et : EventType) (msg : String), (et < 0 ∨ 5 < et) →
      EventType.String stack et ≠ .error (Panic.message msg) := by
    intro et msg h hmsg
    rw [hout et h] at hmsg
    cases hmsg
  refine ⟨⟨rfl, rfl, rfl, rfl, rfl, rfl⟩, ⟨?_, ?_, ?_, ?_, ?_, ?_⟩, by decide, ?_, hout, hnomsg,
    ?_⟩
  · cases stack <;> rfl
  · cases stack <;> rfl
  · cases stack <;> rfl
  · cases stack <;> rfl
  · cases stack <;> rfl
  · cases stack <;> rfl
  · intro a b ha0 ha5 hb0 hb5 hab
    rw [hval a ha0 ha5, hval b hb0 hb5] at hab
    rcases hsix a ha0 ha5 with rfl | rfl | rfl | rfl | rfl | rfl <;>
      rcases hsix b hb0 hb5 with rfl | rfl | rfl | rfl | rfl | rfl <;>
      first | rfl | simp at hab
  · intro et
    constructor
    · rintro ⟨name, hname⟩
      by_contra hne
      have hlt : ∀ x : Int, ¬ (0 ≤ x ∧ x ≤ 5) → x < 0 ∨ 5 < x := fun x hx => by omega
      rw [hout et (hlt et hne)] at hname
      cases hname
    · rintro ⟨h0, h5⟩
      exact ⟨_, hval et h0 h5⟩

/-- C18, at the value 6 with room for three nested calls: `String` ends in the stack
overflow and not in the panic with the message for 6, and at `EVENT_BUCKET_MISS` it
returns the name. -/
theorem EventType_String_never_reaches_panic_witness :
    EventType.String 3 6 = .error Panic.stackOverflow ∧
    EventType.String 3 6 ≠ .error (Panic.message "Don't know event 6") ∧
    EventType.String 3 EVENT_BUCKET_MISS = .ok "EVENT_BUCKET_MISS" :=
  ⟨(EventType_String_never_reaches_panic 3).2.2.2.2.1 6 (by decide),
    (EventType_String_never_reaches_panic 3).2.2.2.2.2.1 6 "Don't know event 6" (by decide),
    (EventType_String_never_reaches_panic 3).2.1.2.2.2.1⟩

end quotaservice

/-! ## Further theorems about admin/namespaces.go -/

namespace admin

/-- The outcome of `changeNamespace` with an updater that makes one call `mk c` of the
engine operation `f`: a body that does not decode gives one error of status 500 and no
call; a body that decodes gives exactly that call with the decoded config, and one error of
status 500 with the message of the engine when the call returns an error, no write
otherwise. -/
theorem changeNamespace_outcome {σ SC NC Body : Type} (env : Env SC NC Body)
    (x : Exchange σ SC NC) (r : Request Body) (f : NC → σ → Option GoError × σ)
    (mk : NC → Call NC) :
    (∀ e, (getNamespaceConfig env r.Body).2 = some e →
      (changeNamespace env x r fun c y =>
          ((f c y.engine).1,
            { y with engine := (f c y.engine).2, calls := y.calls ++ [mk c] })) =
        { x with w := x.w ++ [Written.jsonError (HttpError.mk e 500)] }) ∧
    ((getNamespaceConfig env r.Body).2 = none →
      (∀ e, (f (getNamespaceConfig env r.Body).1 x.engine).1 = some e →
        (changeNamespace env x r fun c y =>
            ((f c y.engine).1,
              { y with engine := (f c y.engine).2, calls := y.calls ++ [mk c] })) =
          { engine := (f (getNamespaceConfig env r.Body).1 x.engine).2
            calls := x.calls ++ [mk (getNamespaceConfig env r.Body).1]
            w := x.w ++ [Written.jsonError (HttpError.mk e 500)] }) ∧
      ((f (getNamespaceConfig env r.Body).1 x.engine).1 = none →
        (changeNamespace env x r fun c y =>
            ((f c y.engine).1,
              { y with engine := (f c y.engine).2, calls := y.calls ++ [mk c] })) =
          { engine := (f (getNamespaceConfig env r.Body).1 x.engine).2
            calls := x.calls ++ [mk (getNamespaceConfig env r.Body).1]
            w := x.w })) := by
  refine ⟨fun e he => ?_, fun hnone => ⟨fun e he => ?_, fun he => ?_⟩⟩
  · simp [changeNamespace, he, writeJSONError, http.StatusInternalServerError]
  · simp [changeNamespace, hnone, he, writeJSONError, http.StatusInternalServerError]
  · simp [changeNamespace, hnone, he]

/-- For a POST request `ServeHTTP` is `changeNamespace` with the `AddNamespace` closure. -/
theorem ServeHTTP_post_eq {σ SC NC Body : Type} (env : Env SC NC Body)
    (a : namespacesAPIHandler σ SC NC) (x : Exchange σ SC NC) (r : Request Body)
    (h : r.Method = "POST") :
    a.ServeHTTP env x r = changeNamespace env x r (addNamespaceUpdater a) := by
  simp [namespacesAPIHandler.ServeHTTP, h]

/-- For a PUT request `ServeHTTP` is `changeNamespace` with the `UpdateNamespace`
closure. -/
theorem ServeHTTP_put_eq {σ SC NC Body : Type} (env : Env SC NC Body)
    (a : namespacesAPIHandler σ SC NC) (x : Exchange σ SC NC) (r : Request Body)
    (h : r.Method = "PUT") :
    a.ServeHTTP env x r = changeNamespace env x r (updateNamespaceUpdater a) := by
  simp [namespacesAPIHandler.ServeHTTP, h]

/-- C11: for a POST request, and likewise for a PUT request with `UpdateNamespace` in
place of `AddNamespace`: when the body does not decode, the handler writes one error of
status 500 with the decoding error and makes no call, so the engine state is unchanged;
when it decodes, the handler calls `AddNamespace` exactly once, with the decoded config,
and writes one error of status 500 with the message of the engine when that call returns
an error, and nothing when it returns none. -/
theorem ServeHTTP_post_put {σ SC NC Body : Type} (env : Env SC NC Body)
    (a : namespacesAPIHandler σ SC NC) (x : Exchange σ SC NC) (r : Request Body) :
    (r.Method = "POST" →
      (∀ e, (getNamespaceConfig env r.Body).2 = some e →
        (a.ServeHTTP env x r).w = x.w ++ [Written.jsonError (HttpError.mk e 500)] ∧
        (a.ServeHTTP env x r).calls = x.calls ∧
        (a.ServeHTTP env x r).engine = x.engine) ∧
      ((getNamespaceConfig env r.Body).2 = none →
        (a.ServeHTTP env x r).calls =
          x.calls ++ [Call.AddNamespace (getNamespaceConfig env r.Body).1] ∧
        (a.ServeHTTP env x r).engine =
          (a.a.AddNamespace (getNamespaceConfig env r.Body).1 x.engine).2 ∧
        (∀ e, (a.a.AddNamespace (getNamespaceConfig env r.Body).1 x.engine).1 = some e →
          (a.ServeHTTP env x r).w = x.w ++ [Written.jsonError (HttpError.mk e 500)]) ∧
        ((a.a.AddNamespace (getNamespaceConfig env r.Body).1 x.engine).1 = none →
          (a.ServeHTTP env x r).w = x.w))) ∧
    (r.Method = "PUT" →
      (∀ e, (getNamespaceConfig env r.Body).2 = some e →
        (a.ServeHTTP env x r).w = x.w ++ [Written.jsonError (HttpError.mk e 500)] ∧
        (a.ServeHTTP env x r).calls = x.calls ∧
        (a.ServeHTTP env x r).engine = x.engine) ∧
      ((getNamespaceConfig env r.Body).2 = none →
        (a.ServeHTTP env x r).calls =
          x.calls ++ [Call.UpdateNamespace (getNamespaceConfig env r.Body).1] ∧
        (a.ServeHTTP env x r).engine =
          (a.a.UpdateNamespace (getNamespaceConfig env r.Body).1 x.engine).2 ∧
        (∀ e, (a.a.UpdateNamespace (getNamespaceConfig env r.Body).1 x.engine).1 = some e →
          (a.ServeHTTP env x r).w = x.w ++ [Written.jsonError (HttpError.mk e 500)]) ∧
        ((a.a.UpdateNamespace (getNamespaceConfig env r.Body).1 x.engine).1 = none →
          (a.ServeHTTP env x r).w = x.w))) := by
  refine ⟨?_, ?_⟩
  · intro h
    rw [ServeHTTP_post_eq env a x r h]
    obtain ⟨H1, H2⟩ := changeNamespace_outcome env x r a.a.AddNamespace Call.AddNamespace
    refine ⟨fun e he => ?_, fun hn => ?_⟩
    · have E : changeNamespace env x r (addNamespaceUpdater a) = _ := H1 e he
      rw [E]
      exact ⟨rfl, rfl, rfl⟩
    · cases hres : (a.a.AddNamespace (getNamespaceConfig env r.Body).1 x.engine).1 with
      | none =>
        have E : changeNamespace env x r (addNamespaceUpdater a) = _ := (H2 hn).2 hres
        rw [E]
        exact ⟨rfl, rfl, fun e he => (by cases he), fun _ => rfl⟩
      | some e0 =>
        have E : changeNamespace env x r (addNamespaceUpdater a) = _ := (H2 hn).1 e0 hres
        rw [E]
        refine ⟨rfl, rfl, fun e he => ?_, fun he => by cases he⟩
        cases he
        rfl
  · intro h
    rw [ServeHTTP_put_eq env a x r h]
    obtain ⟨H1, H2⟩ := changeNamespace_outcome env x r a.a.UpdateNamespace Call.UpdateNamespace
    refine ⟨fun e he => ?_, fun hn => ?_⟩
    · have E : changeNamespace env x r (updateNamespaceUpdater a) = _ := H1 e he
      rw [E]
      exact ⟨rfl, rfl, rfl⟩
    · cases hres : (a.a.UpdateNamespace (getNamespaceConfig env r.Body).1 x.engine).1 with
      | none =>
        have E : changeNamespace env x r (updateNamespaceUpdater a) = _ := (H2 hn).2 hres
        rw [E]
        exact ⟨rfl, rfl, fun e he => (by cases he), fun _ => rfl⟩
      | some e0 =>
        have E : changeNamespace env x r (updateNamespaceUpdater a) = _ := (H2 hn).1 e0 hres
        rw [E]
        refine ⟨rfl, rfl, fun e he => ?_, fun he => by cases he⟩
        cases he
        rfl

/-- C11, at POST requests on an engine that holds the namespace `n`: a body naming `n`
again decodes, `AddNamespace` is called once with it and its error comes back with status
500; a body that does not decode gives status 500 without any call. -/
theorem ServeHTTP_post_put_witness :
    (sampleHandler.ServeHTTP sampleEnv sampleExchange
      (sampleRequestWith "POST" "/api/n" ("n", 1))).calls = [Call.AddNamespace ("n", 1)] ∧
    (sampleHandler.ServeHTTP sampleEnv sampleExchange
      (sampleRequestWith "POST" "/api/n" ("n", 1))).w =
        [Written.jsonError (HttpError.mk "Namespace n already exists" 500)] ∧
    (sampleHandler.ServeHTTP sampleEnv sampleExchange (sampleRequest "POST" "/api/n")).calls =
      [] ∧
    (sampleHandler.ServeHTTP sampleEnv sampleExchange (sampleRequest "POST" "/api/n")).w =
      [Written.jsonError (HttpError.mk "unexpected end of JSON input" 500)] := by
  have hok := ((ServeHTTP_post_put sampleEnv sampleHandler sampleExchange
    (sampleRequestWith "POST" "/api/n" ("n", 1))).1 rfl).2 rfl
  have hbad := ((ServeHTTP_post_put sampleEnv sampleHandler sampleExchange
    (sampleRequest "POST" "/api/n")).1 rfl).1 "unexpected end of JSON input" rfl
  exact ⟨hok.1, hok.2.2.1 "Namespace n already exists" (by decide), hbad.2.1, hbad.1⟩

/-- C12: for a DELETE request the handler calls `DeleteNamespace` exactly once, with the
namespace read from the path, and writes one error of status 400 with the message of the
engine when that call returns an error, and nothing when it returns none. -/
theorem ServeHTTP_delete {σ SC NC Body : Type} (env : Env SC NC Body)
    (a : namespacesAPIHandler σ SC NC) (x : Exchange σ SC NC) (r : Request Body)
    (h : r.Method = "DELETE") :
    (a.ServeHTTP env x r).calls = x.calls ++ [Call.DeleteNamespace (requestNamespace r)] ∧
    (a.ServeHTTP env x r).engine = (a.a.DeleteNamespace (requestNamespace r) x.engine).2 ∧
    (∀ e, (a.a.DeleteNamespace (requestNamespace r) x.engine).1 = some e →
      (a.ServeHTTP env x r).w = x.w ++ [Written.jsonError (HttpError.mk e 400)]) ∧
    ((a.a.DeleteNamespace (requestNamespace r) x.engine).1 = none →
      (a.ServeHTTP env x r).w = x.w) := by
  cases hres : (a.a.DeleteNamespace (requestNamespace r) x.engine).1 with
  | none =>
    refine ⟨?_, ?_, fun e he => (by cases he), fun _ => ?_⟩ <;>
      simp [namespacesAPIHandler.ServeHTTP, h, hres]
  | some e0 =>
    refine ⟨?_, ?_, fun e he => ?_, fun he => (by cases he)⟩
    · simp [namespacesAPIHandler.ServeHTTP, h, hres]
    · simp [namespacesAPIHandler.ServeHTTP, h, hres]
    · cases he
      simp [namespacesAPIHandler.ServeHTTP, h, hres, writeJSONError, http.StatusBadRequest]

/-- C12, at DELETE requests on an engine that holds the namespace `n`: deleting `n` makes
the one call and writes nothing; deleting `m` makes the one call and writes the error of
the engine with status 400. -/
theorem ServeHTTP_delete_witness :
    (sampleHandler.ServeHTTP sampleEnv sampleExchange (sampleRequest "DELETE" "/api/n")).calls =
      [Call.DeleteNamespace "n"] ∧
    (sampleHandler.ServeHTTP sampleEnv sampleExchange (sampleRequest "DELETE" "/api/n")).w =
      [] ∧
    (sampleHandler.ServeHTTP sampleEnv sampleExchange (sampleRequest "DELETE" "/api/m")).w =
      [Written.jsonError (HttpError.mk "Namespace m does not exist" 400)] := by
  have hn := ServeHTTP_delete sampleEnv sampleHandler sampleExchange
    (sampleRequest "DELETE" "/api/n") rfl
  have hm := ServeHTTP_delete sampleEnv sampleHandler sampleExchange
    (sampleRequest "DELETE" "/api/m") rfl
  refine ⟨?_, hn.2.2.2 (by decide), hm.2.2.1 "Namespace m does not exist" (by decide)⟩
  have hns : requestNamespace (sampleRequest "DELETE" "/api/n") = "n" := by decide
  rw [← hns]
  exact hn.1

/-- C17: for POST and for PUT the path of the request does not influence the outcome: two
requests with the same method and the same body leave the same engine state, the same
calls with the same decoded config, and the same response, whatever their paths. -/
theorem ServeHTTP_post_put_ignores_path {σ SC NC Body : Type} (env : Env SC NC Body)
    (a : namespacesAPIHandler σ SC NC) (x : Exchange σ SC NC) (r1 r2 : Request Body)
    (hm : r1.Method = r2.Method) (hb : r1.Body = r2.Body)
    (h : r1.Method = "POST" ∨ r1.Method = "PUT") :
    a.ServeHTTP env x r1 = a.ServeHTTP env x r2 := by
  rcases h with h | h
  · rw [ServeHTTP_post_eq env a x r1 h, ServeHTTP_post_eq env a x r2 (hm ▸ h)]
    simp [changeNamespace, hb]
  · rw [ServeHTTP_put_eq env a x r1 h, ServeHTTP_put_eq env a x r2 (hm ▸ h)]
    simp [changeNamespace, hb]

/-- C17, at two POST requests with the same body and the paths `/api/n` and `/api/other`:
both make the same call and get the same response. -/
theorem ServeHTTP_post_put_ignores_path_witness :
    requestNamespace (sampleRequestWith "POST" "/api/n" ("q", 1)) ≠
      requestNamespace (sampleRequestWith "POST" "/api/other" ("q", 1)) ∧
    sampleHandler.ServeHTTP sampleEnv sampleExchange
        (sampleRequestWith "POST" "/api/n" ("q", 1)) =
      sampleHandler.ServeHTTP sampleEnv sampleExchange
        (sampleRequestWith "POST" "/api/other" ("q", 1)) :=
  ⟨by decide,
    ServeHTTP_post_put_ignores_path sampleEnv sampleHandler sampleExchange
      (sampleRequestWith "POST" "/api/n" ("q", 1))
      (sampleRequestWith "POST" "/api/other" ("q", 1)) rfl rfl (Or.inl rfl)⟩

/-- Trimming the slashes of a list of characters that has one slash in front of a list
that neither starts nor ends with a slash gives that list. -/
theorem trim_slash_cons (l : List Char) (h1 : l.head? ≠ some '/')
    (h2 : l.getLast? ≠ some '/') :
    (('/' :: l).dropWhile fun ch => decide (ch ∈ ['/'])).rdropWhile
      (fun ch => decide (ch ∈ ['/'])) = l := by
  have hdrop : (('/' :: l).dropWhile fun ch => decide (ch ∈ ['/'])) = l := by
    cases l with
    | nil => simp [List.dropWhile]
    | cons c t =>
      have hc : c ≠ '/' := fun hc => h1 (by simp [hc])
      simp [List.dropWhile, hc]
  rw [hdrop, List.rdropWhile_eq_self_iff]
  intro hl hp
  apply h2
  rw [List.getLast?_eq_getLast l hl]
  simpa using hp

/-- C14: the namespace the handler reads from the path `/api/` followed by `ns` is `ns`, for
every `ns` that neither starts nor ends with a slash; and the paths `/api` and `/api/` give
the empty namespace. -/
theorem requestNamespace_of_api_path {Body : Type} (method : String) (body : Body) :
    (∀ ns : String, ns.data.head? ≠ some '/' → ns.data.getLast? ≠ some '/' →
      requestNamespace { Method := method, Path := "/api/" ++ ns, Body := body } = ns) ∧
    requestNamespace { Method := method, Path := "/api", Body := body } = "" ∧
    requestNamespace { Method := method, Path := "/api/", Body := body } = "" := by
  refine ⟨fun ns h1 h2 => ?_, rfl, rfl⟩
  have hpre : "/api".data <+: ("/api/" ++ ns).data :=
    ⟨'/' :: ns.data, by rw [String.data_append]; rfl⟩
  have hdrop : ("/api/" ++ ns).data.drop "/api".data.length = '/' :: ns.data := by
    rw [String.data_append]
    rfl
  have hcut : "/".data = ['/'] := rfl
  simp only [requestNamespace, strings.TrimPrefix, if_pos hpre, strings.Trim, hdrop, hcut]
  rw [trim_slash_cons ns.data h1 h2]

/-- C14, at the namespace `orders`: the path `/api/orders` gives `orders`. -/
theorem requestNamespace_of_api_path_witness :
    requestNamespace (sampleRequest "GET" ("/api/" ++ "orders")) = "orders" :=
  (requestNamespace_of_api_path "GET" (none : Option (String × Nat))).1 "orders"
    (by decide) (by decide)

end admin
